import Mathlib

/-! # Verification development for `scripts/provision/main.go`

The program provisions the remote-state backend of a Terraform workflow:
a bucket, a service account, two folder role bindings, a static access key
and a Lockbox secret, and then writes `state.yaml` and `access-key.yaml`.

The embedding is shallow.  Go strings are Lean `String`s, byte slices are
`List Nat` (every byte kept below 256), the remote API, the file system and
the random source are an explicit environment `Env`, and every effect of the
program is recorded in a trace of `Event`s.
-/

namespace Provision

/-! ## Constants (main.go, lines 24-30) -/

def LockboxSecretKeyAccessKeyId : String := "access_key_id"
def LockboxSecretKeySecretAccessKey : String := "secret_access_key"
def CreatedByLabelKey : String := "created_by"
def CreatedByLabelValue : String := "yc-terraform-templater"

/-! ## `encoding/base32`, `bytes.TrimRight`, `bytes.ToLower`

These are library functions called by `randId`; they are embedded after the
Go standard library (`base32.StdEncoding` is the RFC 4648 alphabet with `=`
padding). -/

/-- Alphabet of `base32.StdEncoding`. -/
def encodeStd : List Char := "ABCDEFGHIJKLMNOPQRSTUVWXYZ234567".toList

/-- Padding character of `base32.StdEncoding`. -/
def StdPadding : Char := '='

/-- `(*Encoding).EncodedLen` for a padded encoding: `(n + 4) / 5 * 8`. -/
def EncodedLen (n : Nat) : Nat := (n + 4) / 5 * 8

/-- Left shift on a Go `byte`: the result is truncated to 8 bits. -/
def shl8 (x k : Nat) : Nat := (x <<< k) % 256

/-- The eight 5-bit values `b[0..7]` that `Encode` computes from the next (at
most five) source bytes.  The `switch len(src)` with its `fallthrough`s is
written as successive guarded updates of `b`, in the order of the Go code. -/
def quantum (src : List Nat) : List Nat :=
  let s := fun i => src.getD i 0
  let n := src.length
  let b : List Nat := List.replicate 8 0
  -- default:
  let b := if 5 ≤ n then (b.set 7 (s 4 &&& 0x1F)).set 6 (s 4 >>> 5) else b
  -- case 4:
  let b := if 4 ≤ n then
      ((b.set 6 (b.getD 6 0 ||| (shl8 (s 3) 3 &&& 0x1F))).set 5
        ((s 3 >>> 2) &&& 0x1F)).set 4 (s 3 >>> 7)
    else b
  -- case 3:
  let b := if 3 ≤ n then
      (b.set 4 (b.getD 4 0 ||| (shl8 (s 2) 1 &&& 0x1F))).set 3 ((s 2 >>> 4) &&& 0x1F)
    else b
  -- case 2:
  let b := if 2 ≤ n then
      ((b.set 3 (b.getD 3 0 ||| (shl8 (s 1) 4 &&& 0x1F))).set 2
        ((s 1 >>> 1) &&& 0x1F)).set 1 ((s 1 >>> 6) &&& 0x1F)
    else b
  -- case 1:
  let b := if 1 ≤ n then
      (b.set 1 (b.getD 1 0 ||| (shl8 (s 0) 2 &&& 0x1F))).set 0 (s 0 >>> 3)
    else b
  b

/-- The lookup `enc.encode[b&31]`; the alphabet has 32 entries, so the index
is always in range. -/
def encodeChar (b : Nat) : Char := encodeStd.getD (b &&& 31) StdPadding

/-- One iteration of the loop of `Encode`: the eight output characters for
the remaining source `src` (non-empty), the final quantum being padded. -/
def encodeBlock (src : List Nat) : List Char :=
  let n := src.length
  let dst := (quantum src).map encodeChar
  -- Pad the final quantum
  if n < 5 then
    let dst := dst.set 7 StdPadding
    let dst := if n < 4 then (dst.set 6 StdPadding).set 5 StdPadding else dst
    let dst := if n < 3 then dst.set 4 StdPadding else dst
    let dst := if n < 2 then (dst.set 3 StdPadding).set 2 StdPadding else dst
    dst
  else dst

/-- The characters produced by the loop `for len(src) > 0` of `Encode`, which
consumes five bytes and produces eight characters per iteration and stops
after the padded final quantum. -/
def encodeLoop : List Nat → List Char
  | [] => []
  | s0 :: s1 :: s2 :: s3 :: s4 :: rest =>
    encodeBlock (s0 :: s1 :: s2 :: s3 :: s4 :: rest) ++ encodeLoop rest
  | src => encodeBlock src

/-- `base32.StdEncoding.Encode(dst, src)`: the characters of the loop are
stored in `dst` from its start; `dst` is returned as it is afterwards. -/
def Encode (dst : List Char) (src : List Nat) : List Char :=
  encodeLoop src ++ dst.drop (encodeLoop src).length

/-- `bytes.TrimRight(s, cutset)`: drops every trailing byte that occurs in
`cutset`. -/
def TrimRight (s : List Char) (cutset : List Char) : List Char :=
  (s.reverse.dropWhile (fun c => cutset.contains c)).reverse

/-- `bytes.ToLower` on ASCII bytes. -/
def ToLower (s : List Char) : List Char := s.map Char.toLower

/-- `make([]byte, n)`: a zeroed slice. -/
def makeBytes (n : Nat) : List Nat := List.replicate n 0

/-- `make([]byte, n)` for a slice that will hold text: `n` zero bytes. -/
def makeText (n : Nat) : List Char := List.replicate n (Char.ofNat 0)

/-- `rand.Read(buf)`: the bytes delivered by the random source `rnd` overwrite
`buf` from the front; a position the source does not reach keeps its old
value (the error of `rand.Read` is discarded by the caller). -/
def randRead (rnd : List Nat) (buf : List Nat) : List Nat :=
  buf.enum.map (fun p => ((rnd.get? p.1).map (fun x => x % 256)).getD p.2)

/-- `randId` (main.go, lines 166-173), as a function of the random source. -/
def randId (rnd : List Nat) : String :=
  let idBytes := randRead rnd (makeBytes 6)
  let dst := makeText (EncodedLen idBytes.length)
  let dst := Encode dst idBytes
  String.mk (ToLower (TrimRight dst [StdPadding]))

/-! ## Errors and `fmt` -/

/-- A non-nil Go `error` value: its dynamic type and the text of `Error()`. -/
structure Error where
  goType : String
  msg : String
  deriving DecidableEq, Repr

/-- `errors.New(text)`. -/
def errorsNew (text : String) : Error := ⟨"*errors.errorString", text⟩

/-- `errors.Join(errs...)` on non-nil errors: `nil` when there is none,
otherwise an error whose text is the texts of `errs` separated by newlines. -/
def errorsJoin (errs : List Error) : Option Error :=
  if errs.length = 0 then none
  else some ⟨"*errors.joinError", "\n".intercalate (errs.map (fun e => e.msg))⟩

/-- An operand of a `fmt` call: its dynamic type and its text under `%v`
(which for strings and errors is also its text under `%s`). -/
structure Arg where
  goType : String
  text : String
  deriving DecidableEq, Repr

def Arg.str (s : String) : Arg := ⟨"string", s⟩
def Arg.err (e : Error) : Arg := ⟨e.goType, e.msg⟩

/-- What `fmt` prints for a verb that has no operand left: `%!v(MISSING)`. -/
def missingOperand (verb : Char) : List Char :=
  "%!".toList ++ [verb] ++ "(MISSING)".toList

/-- What `fmt` prints for one operand.  The program only uses the verbs `%s`
and `%v`; any other verb character is rendered as a bad verb,
`%!c(type=value)`. -/
def printArg (verb : Char) (a : Arg) : List Char :=
  if verb = 's' ∨ verb = 'v' then a.text.toList
  else "%!".toList ++ [verb] ++ "(".toList ++ a.goType.toList ++ "=".toList ++
    a.text.toList ++ ")".toList

/-- What `fmt` appends for the operands no verb consumed: `%!(EXTRA ...)`. -/
def extraOperands (args : List Arg) : List Char :=
  match args with
  | [] => []
  | _ :: _ =>
    "%!(EXTRA ".toList ++
      (", ".intercalate (args.map (fun a => a.goType ++ "=" ++ a.text))).toList ++ ")".toList

/-- The formatting loop of `fmt` (`(*pp).doPrintf`) for flag-free verbs:
literal text is copied, `%%` prints a percent sign, and every other verb
consumes the next operand, or prints `%!v(MISSING)` when none is left. -/
def doPrintf : List Char → List Arg → List Char
  | [], args => extraOperands args
  | c :: rest, args =>
    if c ≠ '%' then c :: doPrintf rest args
    else
      match rest, args with
      | [], args => "%!(NOVERB)".toList ++ extraOperands args
      | verb :: rest, args =>
        if verb = '%' then '%' :: doPrintf rest args
        else
          match args with
          | [] => missingOperand verb ++ doPrintf rest []
          | a :: args => printArg verb a ++ doPrintf rest args

/-- `fmt.Sprintf(format, args...)`. -/
def Sprintf (format : String) (args : List Arg) : String :=
  String.mk (doPrintf format.toList args)

/-- `fmt.Errorf(format, args...)` for a format without `%w`. -/
def Errorf (format : String) (args : List Arg) : Error :=
  errorsNew (Sprintf format args)

/-! ## Data model (main.go, lines 136-157) and the request types -/

structure Config where
  name : String
  folderId : String
  deriving DecidableEq, Repr

structure LockboxSecretKeys where
  accessKeyId : String
  secretAccessKey : String
  deriving DecidableEq, Repr

structure StateOutput where
  stateBucket : String
  saId : String
  lockboxSecretId : String
  lockboxSecretKeys : LockboxSecretKeys
  deriving DecidableEq, Repr

/-- A Go `map[string]string`, as an association list. -/
abbrev GoMap := List (String × String)

/-- The index expression `m[key]`: the zero value `""` for an absent key. -/
def GoMap.get (m : GoMap) (key : String) : String := (m.lookup key).getD ""

/-- `storage.Tag`. -/
structure Tag where
  key : String
  value : String
  deriving DecidableEq, Repr

/-- The fields of `storage.CreateBucketRequest` that the program sets. -/
structure CreateBucketRequest where
  name : String
  folderId : String
  tags : List Tag
  deriving DecidableEq, Repr

/-- The fields of `iam.CreateServiceAccountRequest` that the program sets. -/
structure CreateServiceAccountRequest where
  folderId : String
  name : String
  description : String
  labels : GoMap
  deriving DecidableEq, Repr

/-- The enum `access.AccessBindingAction`. -/
inductive AccessBindingAction where
  | ACCESS_BINDING_ACTION_UNSPECIFIED
  | ADD
  | REMOVE
  deriving DecidableEq, Repr

/-- `access.Subject`. -/
structure Subject where
  id : String
  type : String
  deriving DecidableEq, Repr

/-- `access.AccessBinding`. -/
structure AccessBinding where
  roleId : String
  subject : Subject
  deriving DecidableEq, Repr

/-- `access.AccessBindingDelta`. -/
structure AccessBindingDelta where
  action : AccessBindingAction
  accessBinding : AccessBinding
  deriving DecidableEq, Repr

/-- `access.UpdateAccessBindingsRequest`. -/
structure UpdateAccessBindingsRequest where
  resourceId : String
  accessBindingDeltas : List AccessBindingDelta
  deriving DecidableEq, Repr

/-- `awscompatibility.CreateAccessKeyRequest`: the program sets a service
account id and a description; it sets no label or tag. -/
structure CreateAccessKeyRequest where
  serviceAccountId : String
  description : String
  deriving DecidableEq, Repr

/-- `lockbox.PayloadEntryChange` with a `TextValue`. -/
structure PayloadEntryChange where
  key : String
  textValue : String
  deriving DecidableEq, Repr

/-- The fields of `lockbox.CreateSecretRequest` that the program sets. -/
structure CreateSecretRequest where
  folderId : String
  name : String
  description : String
  labels : GoMap
  versionPayloadEntries : List PayloadEntryChange
  deriving DecidableEq, Repr

/-! ## Responses of the remote API -/

/-- `storage.Bucket`, read through `GetName`. -/
structure Bucket where
  name : String
  deriving DecidableEq, Repr

/-- `iam.CreateServiceAccountMetadata`. -/
structure CreateServiceAccountMetadata where
  serviceAccountId : String
  deriving DecidableEq, Repr

/-- `awscompatibility.AccessKey`, of which the program reads `KeyId`. -/
structure AccessKey where
  keyId : String
  deriving DecidableEq, Repr

/-- `awscompatibility.CreateAccessKeyResponse`; `accessKey` is a pointer and
may be nil. -/
structure CreateAccessKeyResponse where
  accessKey : Option AccessKey
  secret : String
  deriving DecidableEq, Repr

/-- `lockbox.CreateSecretMetadata`. -/
structure CreateSecretMetadata where
  secretId : String
  deriving DecidableEq, Repr

/-! ## Output files

`os.OpenFile` and the writes of the YAML encoder are operating-system and
library behaviour; they are embedded after POSIX `open(2)`/`write(2)`, with a
file as its sequence of bytes. -/

/-- The two files `main` opens under `TfDir`. -/
inductive OutFile where
  | state
  | accessKey
  deriving DecidableEq, Repr

/-- The file name joined to `TfDir`. -/
def OutFile.base : OutFile → String
  | .state => "state.yaml"
  | .accessKey => "access-key.yaml"

/-- Open flags of package `os` (their values on Linux). -/
def O_WRONLY : Nat := 0x1
def O_CREATE : Nat := 0x40
def O_EXCL : Nat := 0x80
def O_TRUNC : Nat := 0x200
def O_APPEND : Nat := 0x400

/-- A file opened for writing: its bytes, the offset of the next write and
whether every write goes to the end (`O_APPEND`). -/
structure OpenedFile where
  content : List Nat
  offset : Nat
  append : Bool
  deriving DecidableEq, Repr

/-- `os.OpenFile(name, flag, perm)` on a file whose bytes are `old` (`none`: the
file does not exist).  `denied` is an error decided by the environment
(permissions, a missing directory, ...). -/
def OpenFile (denied : Option Error) (old : Option (List Nat)) (flag : Nat) :
    Except Error OpenedFile :=
  match denied with
  | some err => .error err
  | none =>
    match old with
    | none =>
      if flag &&& O_CREATE ≠ 0 then .ok ⟨[], 0, flag &&& O_APPEND ≠ 0⟩
      else .error ⟨"*fs.PathError", "no such file or directory"⟩
    | some bytes =>
      if flag &&& O_CREATE ≠ 0 ∧ flag &&& O_EXCL ≠ 0 then
        .error ⟨"*fs.PathError", "file exists"⟩
      else .ok ⟨if flag &&& O_TRUNC ≠ 0 then [] else bytes, 0, flag &&& O_APPEND ≠ 0⟩

/-- One `Write(data)` on an opened file: the bytes are stored at the current
offset (at the end under `O_APPEND`), replacing what was there, and the offset
advances; bytes of the file beyond the written range are left as they are. -/
def OpenedFile.write (f : OpenedFile) (data : List Nat) : OpenedFile :=
  let off := if f.append then f.content.length else f.offset
  { f with
    content := f.content.take off ++ List.replicate (off - f.content.length) 0 ++ data ++
      f.content.drop (off + data.length)
    offset := off + data.length }

/-- A sequence of `Write` calls. -/
def OpenedFile.writeAll (f : OpenedFile) (chunks : List (List Nat)) : OpenedFile :=
  chunks.foldl OpenedFile.write f

/-- A document handed to `yaml.NewEncoder(file).Encode`. -/
inductive YamlDoc where
  | stateOutput (out : StateOutput)
  | lockboxSecretKeys (keys : LockboxSecretKeys)
  deriving DecidableEq, Repr

/-- What one `Encode` call does: the chunks it wrote to the file, in order, and
the error it returned, if any. -/
structure EncodeResult where
  chunks : List (List Nat)
  err : Option Error
  deriving DecidableEq, Repr

/-! ## The environment and the observable run -/

/-- The remote API behind `*ycsdk.SDK`: what each call of the run returns.  A
call that yields an operation returns the error of the call or, inside, the
result of unmarshalling the operation's payload (`UnmarshalTo`).  A deadline
that passes is one of the errors. -/
structure SDK where
  bucketCreate : Except Error (Except Error Bucket)
  serviceAccountCreate : Except Error (Except Error CreateServiceAccountMetadata)
  updateAccessBindings : Option Error
  accessKeyCreate : Except Error CreateAccessKeyResponse
  secretCreate : Except Error (Except Error CreateSecretMetadata)

/-- Everything outside the program that a run depends on. -/
structure Env where
  /-- Result of `os.ReadFile(path.Join(TfDir, "config.yaml"))`. -/
  readFile : Except Error (List Nat)
  /-- The function `yaml.Unmarshal(confBytes, &conf)` on a zero `Config`. -/
  yamlUnmarshal : List Nat → Except Error Config
  /-- Result of `ycsdk.Build`. -/
  sdkBuild : Except Error SDK
  /-- Bytes delivered by `crypto/rand`. -/
  rand : List Nat
  /-- Bytes of the output files before the run (`none`: absent). -/
  files : OutFile → Option (List Nat)
  /-- Error with which the environment refuses to open an output file. -/
  openDenied : OutFile → Option Error
  /-- Behaviour of `yaml.NewEncoder(file).Encode(doc)`. -/
  yamlEncode : OutFile → YamlDoc → EncodeResult

/-- The observable effects of a run, in program order. -/
inductive Event where
  | readFile (name : String)
  | sdkBuild
  | bucketCreate (req : CreateBucketRequest)
  | serviceAccountCreate (req : CreateServiceAccountRequest)
  | updateAccessBindings (req : UpdateAccessBindingsRequest)
  | accessKeyCreate (req : CreateAccessKeyRequest)
  | secretCreate (req : CreateSecretRequest)
  | log (line : String)
  | print (text : String)
  | openFile (file : OutFile) (flag : Nat) (perm : Nat)
  | encode (file : OutFile) (doc : YamlDoc)
  deriving DecidableEq, Repr

/-- The `log.Fatal` call sites of `main`, in program order. -/
inductive Site where
  | setupConf
  | sdkBuild
  | step (n : Nat)
  | openState
  | openAccessKey
  | encodeState
  | encodeAccessKey
  deriving DecidableEq, Repr

/-- How a run ends: `main` returns, a `log.Fatal` exits the process with the
printed message, or the Go runtime panics. -/
inductive Outcome where
  | ok
  | fatal (site : Site) (message : String)
  | panic (reason : String)
  deriving DecidableEq, Repr

/-- A finished run: its trace, the bytes of the output files and its outcome. -/
structure Run where
  trace : List Event
  files : OutFile → Option (List Nat)
  outcome : Outcome

/-- The provisioning step (1 to 5) a remote call belongs to. -/
def Event.step : Event → Option Nat
  | .bucketCreate _ => some 1
  | .serviceAccountCreate _ => some 2
  | .updateAccessBindings _ => some 3
  | .accessKeyCreate _ => some 4
  | .secretCreate _ => some 5
  | _ => none

/-- A call that leaves the process for a remote service. -/
def Event.isRemote : Event → Bool
  | .sdkBuild => true
  | e => e.step.isSome

/-- An open of, or a write to, an output file. -/
def Event.isFileOutput : Event → Bool
  | .openFile _ _ _ => true
  | .encode _ _ => true
  | _ => false

/-- The labels or tags of a create request; the access-key request has no
such field. -/
def Event.marks : Event → List (String × String)
  | .bucketCreate req => req.tags.map (fun t => (t.key, t.value))
  | .serviceAccountCreate req => req.labels
  | .secretCreate req => req.labels
  | _ => []

/-- A request that creates an entity. -/
def Event.isCreate : Event → Bool
  | .bucketCreate _ => true
  | .serviceAccountCreate _ => true
  | .accessKeyCreate _ => true
  | .secretCreate _ => true
  | _ => false

/-- The request carries the fixed `created_by` marker. -/
def Event.carriesCreatedBy (e : Event) : Bool :=
  e.marks.contains (CreatedByLabelKey, CreatedByLabelValue)

/-- A line written by `log.Printf` or `log.Print`. -/
def Event.isLog : Event → Bool
  | .log _ => true
  | _ => false

/-- The event is not a call of a provisioning step after step `n`. -/
def Event.stepLe (n : Nat) (e : Event) : Bool :=
  match e.step with
  | some k => decide (k ≤ n)
  | none => true

/-! ## The program -/

/-- `SetupConf` (main.go, lines 111-134). -/
def SetupConf (env : Env) : List Event × Except Error Config :=
  let trace := [Event.readFile "config.yaml"]
  match env.readFile with
  | .error err => (trace, .error err)
  | .ok confBytes =>
    match env.yamlUnmarshal confBytes with
    | .error err => (trace, .error err)
    | .ok conf =>
      let errs : List Error := []
      let errs := if conf.name = "" then
          errs ++ [errorsNew "\"name\" field in a config can't be empty"] else errs
      let errs := if conf.folderId = "" then
          errs ++ [errorsNew "\"folderId\" field in a config can't be empty"] else errs
      if errs.length > 0 then
        match errorsJoin errs with
        | some err => (trace, .error err)
        | none => (trace, .ok conf)
      else (trace, .ok conf)

/-- Nanoseconds in `time.Second`. -/
def Second : Nat := 1000000000

/-- `TerraformTemplater` (main.go, lines 175-179).  The step timeout bounds
each remote call; whether a call runs into it is the remote API's answer. -/
structure TerraformTemplater where
  conf : Config
  standardStepTimeout : Nat
  sdk : SDK

def NewTerraformTemplater (sdk : SDK) (conf : Config) : TerraformTemplater :=
  { sdk := sdk, conf := conf, standardStepTimeout := 10 * Second }

/-- `CreateBucket` (main.go, lines 185-212); `rnd` is the random source that
`randId` reads. -/
def TerraformTemplater.CreateBucket (t : TerraformTemplater) (rnd : List Nat) :
    List Event × Except Error String :=
  let req : CreateBucketRequest :=
    { name := Sprintf "%s-tf-state-%s" [Arg.str t.conf.name, Arg.str (randId rnd)]
      folderId := t.conf.folderId
      tags := [{ key := CreatedByLabelKey, value := CreatedByLabelValue }] }
  match t.sdk.bucketCreate with
  | .error err => ([.bucketCreate req], .error err)
  | .ok op =>
    match op with
    | .error err => ([.bucketCreate req], .error err)
    | .ok b =>
      let bucketName := b.name
      ([.bucketCreate req, .log (Sprintf "Created bucket: name=%s" [Arg.str bucketName])],
        .ok bucketName)

/-- `CreateServiceAccount` (main.go, lines 214-237). -/
def TerraformTemplater.CreateServiceAccount (t : TerraformTemplater) :
    List Event × Except Error String :=
  let req : CreateServiceAccountRequest :=
    { folderId := t.conf.folderId
      name := Sprintf "%s-tf-state-manager" [Arg.str t.conf.name]
      description := Sprintf
        "\"%s\" SA created for uploading terraform state to bucket bucket" [Arg.str t.conf.name]
      labels := [(CreatedByLabelKey, CreatedByLabelValue)] }
  match t.sdk.serviceAccountCreate with
  | .error err =>
    ([.serviceAccountCreate req],
      .error (Errorf "failed to run service account create operation: %v" [Arg.err err]))
  | .ok op =>
    match op with
    | .error err =>
      ([.serviceAccountCreate req],
        .error (Errorf "failed to unmarshal create service account operation response: %v"
          [Arg.err err]))
    | .ok m =>
      ([.serviceAccountCreate req,
        .log (Sprintf
          "Created service account for Terraform state bucket management: id=\"%s\", name=\"%s\""
          [Arg.str m.serviceAccountId, Arg.str t.conf.name])],
        .ok m.serviceAccountId)

/-- `AssignSaFolderStorageRoles` (main.go, lines 239-277); `none` is the nil
error. -/
def TerraformTemplater.AssignSaFolderStorageRoles (t : TerraformTemplater) (saId : String) :
    List Event × Option Error :=
  let updateAccessBindingsReq : UpdateAccessBindingsRequest :=
    { resourceId := t.conf.folderId
      accessBindingDeltas :=
        [ { action := AccessBindingAction.ADD
            accessBinding :=
              { roleId := "storage.viewer"
                subject := { id := saId, type := "serviceAccount" } } },
          { action := AccessBindingAction.ADD
            accessBinding :=
              { roleId := "storage.uploader"
                subject := { id := saId, type := "serviceAccount" } } } ] }
  match t.sdk.updateAccessBindings with
  | some err =>
    ([.updateAccessBindings updateAccessBindingsReq],
      some (Errorf
        "failed to assign \"storage.\x7bviewer,uploader\x7d\" roles to service account \"%s-tf-state-manager\": %v"
        [Arg.err err]))
  | none =>
    ([.updateAccessBindings updateAccessBindingsReq,
      .log (Sprintf
        "Assigned \"storage.\x7bviewer,uploader\x7d\" roles to service account \"%s\" on folder \"%s\""
        [Arg.str (Sprintf "%s-tf-state-manager" [Arg.str t.conf.name]),
          Arg.str t.conf.folderId])],
      none)

/-- Result of a function that may also panic. -/
inductive Ret (α : Type) where
  | ok (value : α)
  | error (err : Error)
  | panic (reason : String)

/-- `CreateStaticKey` (main.go, lines 279-297).  `op.AccessKey.KeyId` is a
field access through a pointer: it panics when `AccessKey` is nil. -/
def TerraformTemplater.CreateStaticKey (t : TerraformTemplater) (saId : String) :
    List Event × Ret GoMap :=
  let req : CreateAccessKeyRequest :=
    { serviceAccountId := saId
      description := Sprintf
        "access key for sa \"%s-tf-state-manager\" to manage Terraform state bucket"
        [Arg.str t.conf.name] }
  match t.sdk.accessKeyCreate with
  | .error err =>
    ([.accessKeyCreate req], .error (Errorf "failed to create access key: %v" [Arg.err err]))
  | .ok op =>
    match op.accessKey with
    | none =>
      ([.accessKeyCreate req, .log "created access key for sa"],
        .panic "invalid memory address or nil pointer dereference")
    | some accessKey =>
      ([.accessKeyCreate req, .log "created access key for sa"],
        .ok [(LockboxSecretKeyAccessKeyId, accessKey.keyId),
             (LockboxSecretKeySecretAccessKey, op.secret)])

/-- `CreateLockboxSecret` (main.go, lines 299-337). -/
def TerraformTemplater.CreateLockboxSecret (t : TerraformTemplater) (m : GoMap) :
    List Event × Except Error String :=
  let createSecretReq : CreateSecretRequest :=
    { folderId := t.conf.folderId
      name := Sprintf "%s-tf-state-manager-sa-access-key" [Arg.str t.conf.name]
      description := Sprintf "%s-tf-state-manager service account AWS access key"
        [Arg.str t.conf.name]
      labels := [(CreatedByLabelKey, CreatedByLabelValue)]
      versionPayloadEntries :=
        [ { key := LockboxSecretKeyAccessKeyId
            textValue := m.get LockboxSecretKeyAccessKeyId },
          { key := LockboxSecretKeySecretAccessKey
            textValue := m.get LockboxSecretKeySecretAccessKey } ] }
  match t.sdk.secretCreate with
  | .error err =>
    ([.secretCreate createSecretReq],
      .error (Errorf "failed to create lockbox secret: %v" [Arg.err err]))
  | .ok op =>
    match op with
    | .error err => ([.secretCreate createSecretReq], .error err)
    | .ok secretMeta =>
      ([.secretCreate createSecretReq, .log "created lockbox secret for sa access key"],
        .ok secretMeta.secretId)

/-- The file system after the two output files have the given bytes. -/
def setFile (files : OutFile → Option (List Nat)) (file : OutFile) (bytes : List Nat) :
    OutFile → Option (List Nat) :=
  fun g => if g = file then some bytes else files g

/-- The output phase of `main` (lines 77-108), after the five steps. -/
def writeOutput (env : Env) (bucketName saId lockboxSecretId : String) (m : GoMap) : Run :=
  let flag := O_WRONLY ||| O_CREATE
  let open1 := [Event.openFile .state flag 0o775]
  match OpenFile (env.openDenied .state) (env.files .state) flag with
  | .error err =>
    ⟨open1, env.files,
      .fatal .openState (Sprintf "failed to write about Terraform state: %v" [Arg.err err])⟩
  | .ok stateFile =>
  let files1 := setFile env.files .state stateFile.content
  let open2 := open1 ++ [Event.openFile .accessKey flag 0o775]
  match OpenFile (env.openDenied .accessKey) (files1 .accessKey) flag with
  | .error err =>
    ⟨open2, files1,
      .fatal .openAccessKey (Sprintf "failed to write about Terraform state: %v" [Arg.err err])⟩
  | .ok accessKeyFile =>
  let files2 := setFile files1 .accessKey accessKeyFile.content
  let out : StateOutput :=
    { stateBucket := bucketName
      saId := saId
      lockboxSecretId := lockboxSecretId
      lockboxSecretKeys :=
        { accessKeyId := LockboxSecretKeyAccessKeyId
          secretAccessKey := LockboxSecretKeySecretAccessKey } }
  let enc1 := env.yamlEncode .state (.stateOutput out)
  let files3 := setFile files2 .state (stateFile.writeAll enc1.chunks).content
  let trace3 := open2 ++ [Event.encode .state (.stateOutput out)]
  match enc1.err with
  | some err =>
    ⟨trace3, files3,
      .fatal .encodeState (Sprintf "failed to marshal state yaml output: %v" [Arg.err err])⟩
  | none =>
  let keys : LockboxSecretKeys :=
    { accessKeyId := m.get LockboxSecretKeyAccessKeyId
      secretAccessKey := m.get LockboxSecretKeySecretAccessKey }
  let enc2 := env.yamlEncode .accessKey (.lockboxSecretKeys keys)
  let files4 := setFile files3 .accessKey (accessKeyFile.writeAll enc2.chunks).content
  let trace4 := trace3 ++
    [Event.print (Sprintf "AccessKeyId: %v\n" [Arg.str (m.get LockboxSecretKeyAccessKeyId)]),
     Event.print
       (Sprintf "SecretAccessKey: %v\n" [Arg.str (m.get LockboxSecretKeySecretAccessKey)]),
     Event.encode .accessKey (.lockboxSecretKeys keys)]
  match enc2.err with
  | some err =>
    ⟨trace4, files4,
      .fatal .encodeAccessKey
        (Sprintf "failed to marshal access-key yaml output: %v" [Arg.err err])⟩
  | none => ⟨trace4, files4, .ok⟩

/-- `main` (main.go, lines 37-109).  The package-level initialisers
`mustEnv("YC_TOKEN")` and `mustEnv("TF_DIR")` run before `main` and panic when a
variable is unset, so a run of `main` has both. -/
def main (env : Env) : Run :=
  let r0 := SetupConf env
  match r0.2 with
  | .error err => ⟨r0.1, env.files, .fatal .setupConf err.msg⟩
  | .ok conf =>
  let trace := r0.1 ++ [Event.sdkBuild]
  match env.sdkBuild with
  | .error err => ⟨trace, env.files, .fatal .sdkBuild err.msg⟩
  | .ok sdk =>
  let tf := NewTerraformTemplater sdk conf
  let r1 := tf.CreateBucket env.rand
  let trace := trace ++ r1.1
  match r1.2 with
  | .error err => ⟨trace, env.files, .fatal (.step 1) err.msg⟩
  | .ok bucketName =>
  let r2 := tf.CreateServiceAccount
  let trace := trace ++ r2.1
  match r2.2 with
  | .error err => ⟨trace, env.files, .fatal (.step 2) err.msg⟩
  | .ok saId =>
  let r3 := tf.AssignSaFolderStorageRoles saId
  let trace := trace ++ r3.1
  match r3.2 with
  | some err => ⟨trace, env.files, .fatal (.step 3) err.msg⟩
  | none =>
  let r4 := tf.CreateStaticKey saId
  let trace := trace ++ r4.1
  match r4.2 with
  | .panic reason => ⟨trace, env.files, .panic reason⟩
  | .error err => ⟨trace, env.files, .fatal (.step 4) err.msg⟩
  | .ok m =>
  let r5 := tf.CreateLockboxSecret m
  let trace := trace ++ r5.1
  match r5.2 with
  | .error err => ⟨trace, env.files, .fatal (.step 5) err.msg⟩
  | .ok lockboxSecretId =>
  let w := writeOutput env bucketName saId lockboxSecretId m
  ⟨trace ++ w.trace, w.files, w.outcome⟩

/-- The state descriptor a run handed to the encoder of `state.yaml`, if any. -/
def stateDescriptor (trace : List Event) : Option StateOutput :=
  trace.findSome? (fun e =>
    match e with
    | .encode .state (.stateOutput out) => some out
    | _ => none)

/-! ## Reference definitions for the suffix of the bucket name

The specification describes the suffix as the lowercase, unpadded base-32
encoding of the random bytes over the alphabet `a-z2-7`.  The definitions below
state that directly, after RFC 4648: the bytes are read as a bit string, most
significant bit first, which is cut into groups of five bits, the last group
being filled with zero bits; each group selects one letter. -/

/-- A character of the alphabet `a-z2-7`. -/
def isBase32Lower (c : Char) : Bool :=
  ('a' ≤ c && c ≤ 'z') || ('2' ≤ c && c ≤ '7')

/-- The lowercase base-32 alphabet. -/
def lowerAlphabet : List Char := "abcdefghijklmnopqrstuvwxyz234567".toList

/-- The eight bits of a byte, most significant first. -/
def byteBits (x : Nat) : List Nat :=
  [x / 128 % 2, x / 64 % 2, x / 32 % 2, x / 16 % 2, x / 8 % 2, x / 4 % 2, x / 2 % 2, x % 2]

/-- The number a list of bits denotes, most significant first. -/
def bitsValue (bits : List Nat) : Nat := bits.foldl (fun acc b => 2 * acc + b) 0

/-- Groups of five bits; the last group is filled with zero bits. -/
def groups5 : List Nat → List (List Nat)
  | [] => []
  | a :: b :: c :: d :: e :: rest => [a, b, c, d, e] :: groups5 rest
  | bits => [(bits ++ List.replicate 5 0).take 5]

/-- Lowercase, unpadded base-32 encoding of a byte string. -/
def base32LowerUnpadded (bytes : List Nat) : List Char :=
  (groups5 (bytes.flatMap byteBits)).map (fun g => lowerAlphabet.getD (bitsValue g) '?')

/-! ## Sample environments -/

/-- A remote API on which every call succeeds. -/
def demoSDK : SDK :=
  { bucketCreate := .ok (.ok ⟨"demo-tf-state-aebagbafay"⟩)
    serviceAccountCreate := .ok (.ok ⟨"sa-1"⟩)
    updateAccessBindings := none
    accessKeyCreate := .ok ⟨some ⟨"key-1"⟩, "s3cr3t"⟩
    secretCreate := .ok (.ok ⟨"sec-1"⟩) }

/-- The scenario of the specification, `name: demo`, `folderId: fld-1`, in a
directory where `state.yaml` already holds five bytes and `access-key.yaml`
does not exist. -/
def demoEnv : Env :=
  { readFile := .ok [110]
    yamlUnmarshal := fun _ => .ok ⟨"demo", "fld-1"⟩
    sdkBuild := .ok demoSDK
    rand := [1, 2, 3, 4, 5, 6]
    files := fun f =>
      match f with
      | .state => some [9, 9, 9, 9, 9]
      | .accessKey => none
    openDenied := fun _ => none
    yamlEncode := fun f _ =>
      match f with
      | .state => ⟨[[1], [2, 3]], none⟩
      | .accessKey => ⟨[[7, 8]], none⟩ }

/-- The same scenario with a remote API whose role-grant call fails. -/
def grantFailsEnv : Env :=
  { demoEnv with
    sdkBuild := .ok { demoSDK with updateAccessBindings := some ⟨"*status.Error", "deadline exceeded"⟩ } }

/-- A templater for the scenario whose role-grant call fails with `cause`. -/
def grantFailsWith (cause : Error) : TerraformTemplater :=
  NewTerraformTemplater { demoSDK with updateAccessBindings := some cause } ⟨"demo", "fld-1"⟩

/-- The scenario re-run in a directory where `access-key.yaml` already holds
thirteen bytes, with an encoder that writes the two values of an access-key
record as their character codes, one chunk each. -/
def rerunEnv : Env :=
  { demoEnv with
    files := fun f =>
      match f with
      | .state => some [9, 9, 9, 9, 9]
      | .accessKey => some [1, 2, 3, 4, 5, 6, 7, 8, 9, 10, 11, 12, 13]
    yamlEncode := fun _ doc =>
      match doc with
      | .stateOutput _ => ⟨[[1], [2, 3]], none⟩
      | .lockboxSecretKeys keys =>
        ⟨[keys.accessKeyId.toList.map Char.toNat,
          keys.secretAccessKey.toList.map Char.toNat], none⟩ }

/-- The same scenario with a configuration whose two fields are empty. -/
def emptyConfEnv : Env :=
  { demoEnv with yamlUnmarshal := fun _ => .ok ⟨"", ""⟩ }

/-! # Lemmas and theorems -/

/-! ## `randId` -/

/-- Masking with `0x1F` keeps the value modulo 32. -/
theorem and31 (x : Nat) : x &&& 31 = x % 32 := Nat.and_pow_two_sub_one_eq_mod x 5

/-- The 5-bit values of a full quantum, read off the `switch`. -/
theorem quantum_five (s0 s1 s2 s3 s4 : Nat) (rest : List Nat) :
    quantum (s0 :: s1 :: s2 :: s3 :: s4 :: rest) =
      [s0 >>> 3,
       ((s1 >>> 6) &&& 0x1F) ||| (shl8 s0 2 &&& 0x1F),
       (s1 >>> 1) &&& 0x1F,
       ((s2 >>> 4) &&& 0x1F) ||| (shl8 s1 4 &&& 0x1F),
       (s3 >>> 7) ||| (shl8 s2 1 &&& 0x1F),
       (s3 >>> 2) &&& 0x1F,
       (s4 >>> 5) ||| (shl8 s3 3 &&& 0x1F),
       s4 &&& 0x1F] := by
  simp [quantum]

/-- The 5-bit values of a final quantum of one byte. -/
theorem quantum_one (s0 : Nat) :
    quantum [s0] = [s0 >>> 3, 0 ||| (shl8 s0 2 &&& 0x1F), 0, 0, 0, 0, 0, 0] := by
  simp [quantum]

/-- Every entry of the alphabet is an uppercase letter or a digit `2-7`: it is
not the padding character, and its lowercase form is the entry of the
lowercase alphabet at the same index. -/
theorem encodeStd_table : ∀ i, i < 32 →
    isBase32Lower (Char.toLower (encodeStd.getD i StdPadding)) = true ∧
    (Char.toLower (encodeStd.getD i StdPadding)).isUpper = false ∧
    Char.toLower (encodeStd.getD i StdPadding) ≠ StdPadding ∧
    encodeStd.getD i StdPadding ≠ StdPadding ∧
    Char.toLower (encodeStd.getD i StdPadding) = lowerAlphabet.getD i '?' := by
  decide

theorem and31_lt (x : Nat) : x &&& 31 < 32 := by
  rw [and31]; omega

theorem encodeChar_ne_pad (x : Nat) : encodeChar x ≠ StdPadding :=
  (encodeStd_table _ (and31_lt x)).2.2.2.1

theorem encodeChar_lower (x : Nat) :
    Char.toLower (encodeChar x) = lowerAlphabet.getD (x &&& 31) '?' :=
  (encodeStd_table _ (and31_lt x)).2.2.2.2

/-- The sixteen characters `Encode` writes for six bytes: ten letters and six
padding characters. -/
theorem Encode_six (a0 a1 a2 a3 a4 a5 : Nat) :
    Encode (makeText (EncodedLen [a0, a1, a2, a3, a4, a5].length)) [a0, a1, a2, a3, a4, a5] =
      ((quantum [a0, a1, a2, a3, a4] ++ [a5 >>> 3]).map encodeChar ++
        [encodeChar (0 ||| (shl8 a5 2 &&& 0x1F))]) ++ List.replicate 6 StdPadding := by
  simp [Encode, encodeLoop, encodeBlock, quantum_five, quantum_one, makeText, EncodedLen]

/-- Trailing padding is all that `TrimRight` removes when the character before
it is not a padding character. -/
theorem TrimRight_pad (l : List Char) (c : Char) (hc : c ≠ StdPadding) (k : Nat) :
    TrimRight ((l ++ [c]) ++ List.replicate k StdPadding) [StdPadding] = l ++ [c] := by
  unfold TrimRight
  rw [List.reverse_append, List.reverse_replicate]
  have h1 : ∀ n (r : List Char), (List.replicate n StdPadding ++ r).dropWhile
      (fun c => [StdPadding].contains c) = r.dropWhile (fun c => [StdPadding].contains c) := by
    intro n r
    induction n with
    | zero => simp
    | succ n ih => simp [List.replicate_succ, List.dropWhile_cons, ih]
  rw [h1]
  simp [List.dropWhile_cons, hc]

set_option maxHeartbeats 2000000 in
/-- The ten 5-bit values the encoder computes for six bytes are the values of
the ten 5-bit groups of their bit string. -/
theorem quantum_groups5 (a0 a1 a2 a3 a4 a5 : Nat)
    (h0 : a0 < 256) (h1 : a1 < 256) (h2 : a2 < 256) (h3 : a3 < 256) (h4 : a4 < 256)
    (h5 : a5 < 256) :
    ((quantum [a0, a1, a2, a3, a4]) ++ [a5 >>> 3, 0 ||| (shl8 a5 2 &&& 0x1F)]).map
        (fun x => x &&& 31)
      = (groups5 ([a0, a1, a2, a3, a4, a5].flatMap byteBits)).map bitsValue := by
  have or1 : ((a1 >>> 6) &&& 0x1F) ||| (shl8 a0 2 &&& 0x1F) = a1 / 64 + 4 * (a0 % 8) := by
    have e1 : (a1 >>> 6) &&& 0x1F = a1 / 64 := by
      rw [and31, Nat.shiftRight_eq_div_pow]; omega
    have e2 : shl8 a0 2 &&& 0x1F = 2 ^ 2 * (a0 % 8) := by
      rw [and31, shl8, Nat.shiftLeft_eq]; omega
    rw [e1, e2, Nat.or_comm, ← Nat.mul_add_lt_is_or (by omega)]; omega
  have or3 : ((a2 >>> 4) &&& 0x1F) ||| (shl8 a1 4 &&& 0x1F) = a2 / 16 + 16 * (a1 % 2) := by
    have e1 : (a2 >>> 4) &&& 0x1F = a2 / 16 := by
      rw [and31, Nat.shiftRight_eq_div_pow]; omega
    have e2 : shl8 a1 4 &&& 0x1F = 2 ^ 4 * (a1 % 2) := by
      rw [and31, shl8, Nat.shiftLeft_eq]; omega
    rw [e1, e2, Nat.or_comm, ← Nat.mul_add_lt_is_or (by omega)]; omega
  have or4 : (a3 >>> 7) ||| (shl8 a2 1 &&& 0x1F) = a3 / 128 + 2 * (a2 % 16) := by
    have e1 : a3 >>> 7 = a3 / 128 := by
      rw [Nat.shiftRight_eq_div_pow]
    have e2 : shl8 a2 1 &&& 0x1F = 2 ^ 1 * (a2 % 16) := by
      rw [and31, shl8, Nat.shiftLeft_eq]; omega
    rw [e1, e2, Nat.or_comm, ← Nat.mul_add_lt_is_or (by omega)]; omega
  have or6 : (a4 >>> 5) ||| (shl8 a3 3 &&& 0x1F) = a4 / 32 + 8 * (a3 % 4) := by
    have e1 : a4 >>> 5 = a4 / 32 := by
      rw [Nat.shiftRight_eq_div_pow]
    have e2 : shl8 a3 3 &&& 0x1F = 2 ^ 3 * (a3 % 4) := by
      rw [and31, shl8, Nat.shiftLeft_eq]; omega
    rw [e1, e2, Nat.or_comm, ← Nat.mul_add_lt_is_or (by omega)]; omega
  have or9 : 0 ||| (shl8 a5 2 &&& 0x1F) = 4 * (a5 % 8) := by
    rw [Nat.zero_or, and31, shl8, Nat.shiftLeft_eq]; omega
  rw [quantum_five]
  simp only [List.map, List.cons_append, List.nil_append, or1, or3, or4, or6, or9]
  simp only [and31, Nat.shiftRight_eq_div_pow]
  simp only [List.flatMap_cons, List.flatMap_nil, List.map, byteBits, List.cons_append,
    List.nil_append, groups5, bitsValue, List.foldl, List.replicate, List.take, List.append_nil]
  simp only [List.cons.injEq, and_true]
  norm_num only
  clear or1 or3 or4 or6 or9
  refine ⟨?_, ?_, ?_, ?_, ?_, ?_, ?_, ?_, ?_, ?_⟩ <;> omega

/-- The six bytes `randId` encodes: what the random source delivers, each
reduced to a byte, zero where the source delivers nothing. -/
theorem randRead_six (rnd : List Nat) :
    ∃ a0 a1 a2 a3 a4 a5 : Nat,
      randRead rnd (makeBytes 6) = [a0, a1, a2, a3, a4, a5] ∧
      a0 < 256 ∧ a1 < 256 ∧ a2 < 256 ∧ a3 < 256 ∧ a4 < 256 ∧ a5 < 256 := by
  have hb : ∀ i, ((rnd.get? i).map (fun x => x % 256)).getD 0 < 256 := by
    intro i
    cases rnd.get? i with
    | none => simp
    | some x => simp; omega
  refine ⟨_, _, _, _, _, _, ?_, hb 0, hb 1, hb 2, hb 3, hb 4, hb 5⟩
  simp [randRead, makeBytes, List.replicate, List.enum, List.enumFrom]

/-- Six bytes delivered by the random source are the six bytes encoded. -/
theorem randRead_bytes (a0 a1 a2 a3 a4 a5 : Nat)
    (h0 : a0 < 256) (h1 : a1 < 256) (h2 : a2 < 256) (h3 : a3 < 256) (h4 : a4 < 256)
    (h5 : a5 < 256) :
    randRead [a0, a1, a2, a3, a4, a5] (makeBytes 6) = [a0, a1, a2, a3, a4, a5] := by
  simp [randRead, makeBytes, List.replicate, List.enum, List.enumFrom, Nat.mod_eq_of_lt, *]

/-- The suffix computed from six bytes: the lowercase letters of the ten 5-bit
values. -/
theorem lower_trim_Encode (a0 a1 a2 a3 a4 a5 : Nat) :
    ToLower (TrimRight (Encode (makeText 16) [a0, a1, a2, a3, a4, a5]) [StdPadding]) =
      (quantum [a0, a1, a2, a3, a4] ++ [a5 >>> 3, 0 ||| (shl8 a5 2 &&& 0x1F)]).map
        (fun v => Char.toLower (encodeChar v)) := by
  have h16 : makeText 16 = makeText (EncodedLen [a0, a1, a2, a3, a4, a5].length) := by
    simp [EncodedLen]
  rw [h16, Encode_six, TrimRight_pad _ _ (encodeChar_ne_pad _)]
  simp [ToLower]

/-- The suffix has ten characters. -/
theorem lower_trim_Encode_length (a0 a1 a2 a3 a4 a5 : Nat) :
    (ToLower (TrimRight (Encode (makeText 16) [a0, a1, a2, a3, a4, a5]) [StdPadding])).length = 10 := by
  rw [lower_trim_Encode, quantum_five]
  simp

/-- Every character of the suffix is in `a-z2-7`; none is uppercase or `=`. -/
theorem lower_trim_Encode_chars (a0 a1 a2 a3 a4 a5 : Nat) :
    (ToLower (TrimRight (Encode (makeText 16) [a0, a1, a2, a3, a4, a5]) [StdPadding])).all
      (fun c => isBase32Lower c && !c.isUpper && c != StdPadding) = true := by
  rw [lower_trim_Encode, List.all_eq_true]
  intro c hc
  rw [List.mem_map] at hc
  obtain ⟨v, -, rfl⟩ := hc
  obtain ⟨t1, t2, t3, -, -⟩ := encodeStd_table _ (and31_lt v)
  simp only [encodeChar, t1, t2, Bool.not_false, Bool.and_self, Bool.true_and, bne_iff_ne, ne_eq]
  exact t3

/-- The suffix is the lowercase, unpadded base-32 encoding of the six bytes. -/
theorem lower_trim_Encode_eq (a0 a1 a2 a3 a4 a5 : Nat)
    (h0 : a0 < 256) (h1 : a1 < 256) (h2 : a2 < 256) (h3 : a3 < 256) (h4 : a4 < 256)
    (h5 : a5 < 256) :
    ToLower (TrimRight (Encode (makeText 16) [a0, a1, a2, a3, a4, a5]) [StdPadding]) =
      base32LowerUnpadded [a0, a1, a2, a3, a4, a5] := by
  have hq := quantum_groups5 a0 a1 a2 a3 a4 a5 h0 h1 h2 h3 h4 h5
  have hfun : (fun v => Char.toLower (encodeChar v)) =
      (fun i => lowerAlphabet.getD i '?') ∘ (fun x => x &&& 31) := by
    funext v
    exact encodeChar_lower v
  rw [lower_trim_Encode, hfun, ← List.map_map, hq, List.map_map]
  rfl

/-- `randId` on the six bytes it read. -/
theorem randId_eq (rnd : List Nat) (a0 a1 a2 a3 a4 a5 : Nat)
    (hr : randRead rnd (makeBytes 6) = [a0, a1, a2, a3, a4, a5]) :
    randId rnd = String.mk
      (ToLower (TrimRight (Encode (makeText 16) [a0, a1, a2, a3, a4, a5]) [StdPadding])) := by
  show String.mk (ToLower (TrimRight
    (Encode (makeText (EncodedLen (randRead rnd (makeBytes 6)).length))
      (randRead rnd (makeBytes 6))) [StdPadding])) = _
  rw [hr]
  have h16 : EncodedLen [a0, a1, a2, a3, a4, a5].length = 16 := by
    simp [EncodedLen]
  rw [h16]

/-- The `fmt` rendering of the bucket name. -/
theorem Sprintf_bucket_name (name id : String) :
    Sprintf "%s-tf-state-%s" [Arg.str name, Arg.str id] = name ++ "-tf-state-" ++ id := by
  apply String.ext
  simp [Sprintf, doPrintf, printArg, Arg.str, extraOperands, String.toList]

/-- C5, as the specification states it, fails: for six zero bytes `randId`
returns a string that does not have 8 characters. -/
theorem randId_length_eight_fails : ¬ (randId [0, 0, 0, 0, 0, 0]).length = 8 := by
  decide

/-- C5, amended: for every state of the random source (hence every value of
the six random bytes) `randId` returns exactly 10 characters of `a-z2-7`, and
the bucket name that `CreateBucket` requests is the configured name, then
`-tf-state-`, then that suffix. -/
theorem randId_length_ten (t : TerraformTemplater) (rnd : List Nat) :
    (randId rnd).length = 10 ∧
    (randId rnd).toList.all isBase32Lower = true ∧
    (t.CreateBucket rnd).1.head? = some (Event.bucketCreate
      { name := t.conf.name ++ "-tf-state-" ++ randId rnd
        folderId := t.conf.folderId
        tags := [{ key := CreatedByLabelKey, value := CreatedByLabelValue }] }) := by
  obtain ⟨a0, a1, a2, a3, a4, a5, hr, -⟩ := randRead_six rnd
  refine ⟨?_, ?_, ?_⟩
  · rw [randId_eq rnd a0 a1 a2 a3 a4 a5 hr]
    exact lower_trim_Encode_length a0 a1 a2 a3 a4 a5
  · have h := lower_trim_Encode_chars a0 a1 a2 a3 a4 a5
    rw [randId_eq rnd a0 a1 a2 a3 a4 a5 hr]
    simp only [String.toList]
    rw [List.all_eq_true] at h ⊢
    intro c hc
    have := h c hc
    simp only [Bool.and_eq_true] at this
    exact this.1.1
  · rw [← Sprintf_bucket_name]
    unfold TerraformTemplater.CreateBucket
    cases t.sdk.bucketCreate with
    | error err => rfl
    | ok op =>
      cases op with
      | error err => rfl
      | ok b => rfl

/-- C6: for every state of the random source (hence every value of the six
random bytes) every character of `randId` is a lowercase letter or a digit
`2-7`, none is uppercase or the padding character `=`, and the string is the
base-32 encoding of the six bytes with the padding stripped and the letters
lowercased, which is their lowercase unpadded base-32 encoding. -/
theorem randId_is_lower_base32 (rnd : List Nat) :
    (randId rnd).toList.all (fun c => isBase32Lower c && !c.isUpper && c != '=') = true ∧
    randId rnd =
      String.mk (ToLower (TrimRight
        (Encode (makeText (EncodedLen 6)) (randRead rnd (makeBytes 6))) ['='])) ∧
    randId rnd = String.mk (base32LowerUnpadded (randRead rnd (makeBytes 6))) := by
  obtain ⟨a0, a1, a2, a3, a4, a5, hr, h0, h1, h2, h3, h4, h5⟩ := randRead_six rnd
  refine ⟨?_, ?_, ?_⟩
  · have e := randId_eq rnd a0 a1 a2 a3 a4 a5 hr
    have h := lower_trim_Encode_chars a0 a1 a2 a3 a4 a5
    rw [e]
    simp only [String.toList]
    exact h
  · rw [hr]
    exact randId_eq rnd a0 a1 a2 a3 a4 a5 hr
  · rw [randId_eq rnd a0 a1 a2 a3 a4 a5 hr, hr,
      lower_trim_Encode_eq a0 a1 a2 a3 a4 a5 h0 h1 h2 h3 h4 h5]

/-! ## `SetupConf` -/

/-- C1: for every parsed configuration, `SetupConf` returns an error exactly
when `name` or `folderId` is empty, and the error lists one message per empty
field and no other: the `name` message alone, the `folderId` message alone, or
both with the `name` message first; with no empty field it returns the
configuration. -/
theorem SetupConf_validation (env : Env) (confBytes : List Nat) (conf : Config)
    (hread : env.readFile = .ok confBytes)
    (hparse : env.yamlUnmarshal confBytes = .ok conf) :
    ((∃ err, (SetupConf env).2 = .error err) ↔ (conf.name = "" ∨ conf.folderId = "")) ∧
    (conf.name ≠ "" → conf.folderId ≠ "" → (SetupConf env).2 = .ok conf) ∧
    (conf.name = "" → conf.folderId ≠ "" →
      (SetupConf env).2 =
        .error ⟨"*errors.joinError", "\"name\" field in a config can't be empty"⟩) ∧
    (conf.name ≠ "" → conf.folderId = "" →
      (SetupConf env).2 =
        .error ⟨"*errors.joinError", "\"folderId\" field in a config can't be empty"⟩) ∧
    (conf.name = "" → conf.folderId = "" →
      (SetupConf env).2 =
        .error ⟨"*errors.joinError",
          "\"name\" field in a config can't be empty\n\"folderId\" field in a config can't be empty"⟩) := by
  have hnn : conf.name ≠ "" → conf.folderId ≠ "" → (SetupConf env).2 = .ok conf := by
    intro h1 h2
    simp [SetupConf, hread, hparse, h1, h2]
  have hen : conf.name = "" → conf.folderId ≠ "" → (SetupConf env).2 =
      .error ⟨"*errors.joinError", "\"name\" field in a config can't be empty"⟩ := by
    intro h1 h2
    simp [SetupConf, hread, hparse, h1, h2, errorsJoin, errorsNew]
    rfl
  have hne : conf.name ≠ "" → conf.folderId = "" → (SetupConf env).2 =
      .error ⟨"*errors.joinError", "\"folderId\" field in a config can't be empty"⟩ := by
    intro h1 h2
    simp [SetupConf, hread, hparse, h1, h2, errorsJoin, errorsNew]
    rfl
  have hee : conf.name = "" → conf.folderId = "" → (SetupConf env).2 =
      .error ⟨"*errors.joinError",
        "\"name\" field in a config can't be empty\n\"folderId\" field in a config can't be empty"⟩ := by
    intro h1 h2
    simp [SetupConf, hread, hparse, h1, h2, errorsJoin, errorsNew]
    rfl
  refine ⟨?_, hnn, hen, hne, hee⟩
  by_cases h1 : conf.name = "" <;> by_cases h2 : conf.folderId = ""
  · exact ⟨fun _ => Or.inl h1, fun _ => ⟨_, hee h1 h2⟩⟩
  · exact ⟨fun _ => Or.inl h1, fun _ => ⟨_, hen h1 h2⟩⟩
  · exact ⟨fun _ => Or.inr h2, fun _ => ⟨_, hne h1 h2⟩⟩
  · constructor
    · rintro ⟨err, herr⟩
      rw [hnn h1 h2] at herr
      cases herr
    · rintro (h | h)
      · exact absurd h h1
      · exact absurd h h2

/-- Witness of C1: a configuration with both fields empty yields the error
that lists both messages, the `name` message first. -/
theorem SetupConf_validation_witness :
    (SetupConf emptyConfEnv).2 =
      .error ⟨"*errors.joinError",
        "\"name\" field in a config can't be empty\n\"folderId\" field in a config can't be empty"⟩ :=
  (SetupConf_validation emptyConfEnv [110] ⟨"", ""⟩ rfl rfl).2.2.2.2 rfl rfl

/-! ## The run of `main` -/

/-- Case principle for `main`: a property of every run can be proved along the
program, one exit at a time. -/
theorem main_cases (env : Env) (Q : Run → Prop)
    (hconf : ∀ err, (SetupConf env).2 = .error err →
      Q ⟨(SetupConf env).1, env.files, .fatal .setupConf err.msg⟩)
    (hsdk : ∀ conf err, (SetupConf env).2 = .ok conf → env.sdkBuild = .error err →
      Q ⟨(SetupConf env).1 ++ [Event.sdkBuild], env.files, .fatal .sdkBuild err.msg⟩)
    (h1 : ∀ conf sdk err, (SetupConf env).2 = .ok conf → env.sdkBuild = .ok sdk →
      ((NewTerraformTemplater sdk conf).CreateBucket env.rand).2 = .error err →
      Q ⟨(SetupConf env).1 ++ [Event.sdkBuild] ++
          ((NewTerraformTemplater sdk conf).CreateBucket env.rand).1,
        env.files, .fatal (.step 1) err.msg⟩)
    (h2 : ∀ conf sdk bucketName err, (SetupConf env).2 = .ok conf → env.sdkBuild = .ok sdk →
      ((NewTerraformTemplater sdk conf).CreateBucket env.rand).2 = .ok bucketName →
      (NewTerraformTemplater sdk conf).CreateServiceAccount.2 = .error err →
      Q ⟨(SetupConf env).1 ++ [Event.sdkBuild] ++
          ((NewTerraformTemplater sdk conf).CreateBucket env.rand).1 ++
          (NewTerraformTemplater sdk conf).CreateServiceAccount.1,
        env.files, .fatal (.step 2) err.msg⟩)
    (h3 : ∀ conf sdk bucketName saId err, (SetupConf env).2 = .ok conf →
      env.sdkBuild = .ok sdk →
      ((NewTerraformTemplater sdk conf).CreateBucket env.rand).2 = .ok bucketName →
      (NewTerraformTemplater sdk conf).CreateServiceAccount.2 = .ok saId →
      ((NewTerraformTemplater sdk conf).AssignSaFolderStorageRoles saId).2 = some err →
      Q ⟨(SetupConf env).1 ++ [Event.sdkBuild] ++
          ((NewTerraformTemplater sdk conf).CreateBucket env.rand).1 ++
          (NewTerraformTemplater sdk conf).CreateServiceAccount.1 ++
          ((NewTerraformTemplater sdk conf).AssignSaFolderStorageRoles saId).1,
        env.files, .fatal (.step 3) err.msg⟩)
    (hpanic : ∀ conf sdk bucketName saId reason, (SetupConf env).2 = .ok conf →
      env.sdkBuild = .ok sdk →
      ((NewTerraformTemplater sdk conf).CreateBucket env.rand).2 = .ok bucketName →
      (NewTerraformTemplater sdk conf).CreateServiceAccount.2 = .ok saId →
      ((NewTerraformTemplater sdk conf).AssignSaFolderStorageRoles saId).2 = none →
      ((NewTerraformTemplater sdk conf).CreateStaticKey saId).2 = .panic reason →
      Q ⟨(SetupConf env).1 ++ [Event.sdkBuild] ++
          ((NewTerraformTemplater sdk conf).CreateBucket env.rand).1 ++
          (NewTerraformTemplater sdk conf).CreateServiceAccount.1 ++
          ((NewTerraformTemplater sdk conf).AssignSaFolderStorageRoles saId).1 ++
          ((NewTerraformTemplater sdk conf).CreateStaticKey saId).1,
        env.files, .panic reason⟩)
    (h4 : ∀ conf sdk bucketName saId err, (SetupConf env).2 = .ok conf →
      env.sdkBuild = .ok sdk →
      ((NewTerraformTemplater sdk conf).CreateBucket env.rand).2 = .ok bucketName →
      (NewTerraformTemplater sdk conf).CreateServiceAccount.2 = .ok saId →
      ((NewTerraformTemplater sdk conf).AssignSaFolderStorageRoles saId).2 = none →
      ((NewTerraformTemplater sdk conf).CreateStaticKey saId).2 = .error err →
      Q ⟨(SetupConf env).1 ++ [Event.sdkBuild] ++
          ((NewTerraformTemplater sdk conf).CreateBucket env.rand).1 ++
          (NewTerraformTemplater sdk conf).CreateServiceAccount.1 ++
          ((NewTerraformTemplater sdk conf).AssignSaFolderStorageRoles saId).1 ++
          ((NewTerraformTemplater sdk conf).CreateStaticKey saId).1,
        env.files, .fatal (.step 4) err.msg⟩)
    (h5 : ∀ conf sdk bucketName saId m err, (SetupConf env).2 = .ok conf →
      env.sdkBuild = .ok sdk →
      ((NewTerraformTemplater sdk conf).CreateBucket env.rand).2 = .ok bucketName →
      (NewTerraformTemplater sdk conf).CreateServiceAccount.2 = .ok saId →
      ((NewTerraformTemplater sdk conf).AssignSaFolderStorageRoles saId).2 = none →
      ((NewTerraformTemplater sdk conf).CreateStaticKey saId).2 = .ok m →
      ((NewTerraformTemplater sdk conf).CreateLockboxSecret m).2 = .error err →
      Q ⟨(SetupConf env).1 ++ [Event.sdkBuild] ++
          ((NewTerraformTemplater sdk conf).CreateBucket env.rand).1 ++
          (NewTerraformTemplater sdk conf).CreateServiceAccount.1 ++
          ((NewTerraformTemplater sdk conf).AssignSaFolderStorageRoles saId).1 ++
          ((NewTerraformTemplater sdk conf).CreateStaticKey saId).1 ++
          ((NewTerraformTemplater sdk conf).CreateLockboxSecret m).1,
        env.files, .fatal (.step 5) err.msg⟩)
    (hout : ∀ conf sdk bucketName saId m lockboxSecretId, (SetupConf env).2 = .ok conf →
      env.sdkBuild = .ok sdk →
      ((NewTerraformTemplater sdk conf).CreateBucket env.rand).2 = .ok bucketName →
      (NewTerraformTemplater sdk conf).CreateServiceAccount.2 = .ok saId →
      ((NewTerraformTemplater sdk conf).AssignSaFolderStorageRoles saId).2 = none →
      ((NewTerraformTemplater sdk conf).CreateStaticKey saId).2 = .ok m →
      ((NewTerraformTemplater sdk conf).CreateLockboxSecret m).2 = .ok lockboxSecretId →
      Q ⟨(SetupConf env).1 ++ [Event.sdkBuild] ++
          ((NewTerraformTemplater sdk conf).CreateBucket env.rand).1 ++
          (NewTerraformTemplater sdk conf).CreateServiceAccount.1 ++
          ((NewTerraformTemplater sdk conf).AssignSaFolderStorageRoles saId).1 ++
          ((NewTerraformTemplater sdk conf).CreateStaticKey saId).1 ++
          ((NewTerraformTemplater sdk conf).CreateLockboxSecret m).1 ++
          (writeOutput env bucketName saId lockboxSecretId m).trace,
        (writeOutput env bucketName saId lockboxSecretId m).files,
        (writeOutput env bucketName saId lockboxSecretId m).outcome⟩) :
    Q (main env) := by
  unfold main
  simp only []
  split
  · next err h => exact hconf err h
  · next conf hc =>
    split
    · next err h => exact hsdk conf err hc h
    · next sdk hs =>
      split
      · next err h => exact h1 conf sdk err hc hs h
      · next bucketName hb =>
        split
        · next err h => exact h2 conf sdk bucketName err hc hs hb h
        · next saId hsa =>
          split
          · next err h => exact h3 conf sdk bucketName saId err hc hs hb hsa h
          · next hr =>
            split
            · next reason h => exact hpanic conf sdk bucketName saId reason hc hs hb hsa hr h
            · next err h => exact h4 conf sdk bucketName saId err hc hs hb hsa hr h
            · next m hm =>
              split
              · next err h => exact h5 conf sdk bucketName saId m err hc hs hb hsa hr hm h
              · next id h => exact hout conf sdk bucketName saId m id hc hs hb hsa hr hm h

/-! ## The traces of the steps -/

/-- A property that holds of every log line holds of a list of log lines. -/
theorem all_of_isLog (P : Event → Bool) (hP : ∀ line, P (.log line) = true)
    (logs : List Event) (hlogs : logs.all Event.isLog = true) : logs.all P = true := by
  rw [List.all_eq_true] at hlogs ⊢
  intro e he
  have := hlogs e he
  cases e <;> simp_all [Event.isLog]

theorem SetupConf_trace (env : Env) : (SetupConf env).1 = [Event.readFile "config.yaml"] := by
  unfold SetupConf
  simp only []
  split
  · rfl
  · split
    · rfl
    · next conf _ =>
      by_cases h1 : conf.name = "" <;> by_cases h2 : conf.folderId = "" <;>
        simp [h1, h2, errorsJoin]

theorem CreateBucket_trace (t : TerraformTemplater) (rnd : List Nat) :
    ∃ logs, logs.all Event.isLog = true ∧
      (t.CreateBucket rnd).1 = Event.bucketCreate
        { name := Sprintf "%s-tf-state-%s" [Arg.str t.conf.name, Arg.str (randId rnd)]
          folderId := t.conf.folderId
          tags := [{ key := CreatedByLabelKey, value := CreatedByLabelValue }] } :: logs := by
  unfold TerraformTemplater.CreateBucket
  cases t.sdk.bucketCreate with
  | error err => exact ⟨[], rfl, rfl⟩
  | ok op =>
    cases op with
    | error err => exact ⟨[], rfl, rfl⟩
    | ok b => exact ⟨_, by rfl, rfl⟩

theorem CreateServiceAccount_trace (t : TerraformTemplater) :
    ∃ logs, logs.all Event.isLog = true ∧
      t.CreateServiceAccount.1 = Event.serviceAccountCreate
        { folderId := t.conf.folderId
          name := Sprintf "%s-tf-state-manager" [Arg.str t.conf.name]
          description := Sprintf
            "\"%s\" SA created for uploading terraform state to bucket bucket"
            [Arg.str t.conf.name]
          labels := [(CreatedByLabelKey, CreatedByLabelValue)] } :: logs := by
  unfold TerraformTemplater.CreateServiceAccount
  cases t.sdk.serviceAccountCreate with
  | error err => exact ⟨[], rfl, rfl⟩
  | ok op =>
    cases op with
    | error err => exact ⟨[], rfl, rfl⟩
    | ok m => exact ⟨_, by rfl, rfl⟩

theorem AssignSaFolderStorageRoles_trace (t : TerraformTemplater) (saId : String) :
    ∃ logs, logs.all Event.isLog = true ∧
      (t.AssignSaFolderStorageRoles saId).1 = Event.updateAccessBindings
        { resourceId := t.conf.folderId
          accessBindingDeltas :=
            [ { action := AccessBindingAction.ADD
                accessBinding :=
                  { roleId := "storage.viewer"
                    subject := { id := saId, type := "serviceAccount" } } },
              { action := AccessBindingAction.ADD
                accessBinding :=
                  { roleId := "storage.uploader"
                    subject := { id := saId, type := "serviceAccount" } } } ] } :: logs := by
  unfold TerraformTemplater.AssignSaFolderStorageRoles
  cases t.sdk.updateAccessBindings with
  | some err => exact ⟨[], rfl, rfl⟩
  | none => exact ⟨_, by rfl, rfl⟩

theorem CreateStaticKey_trace (t : TerraformTemplater) (saId : String) :
    ∃ logs, logs.all Event.isLog = true ∧
      (t.CreateStaticKey saId).1 = Event.accessKeyCreate
        { serviceAccountId := saId
          description := Sprintf
            "access key for sa \"%s-tf-state-manager\" to manage Terraform state bucket"
            [Arg.str t.conf.name] } :: logs := by
  unfold TerraformTemplater.CreateStaticKey
  cases t.sdk.accessKeyCreate with
  | error err => exact ⟨[], rfl, rfl⟩
  | ok op =>
    simp only []
    cases op.accessKey with
    | none => exact ⟨_, by rfl, rfl⟩
    | some accessKey => exact ⟨_, by rfl, rfl⟩

theorem CreateLockboxSecret_trace (t : TerraformTemplater) (m : GoMap) :
    ∃ logs, logs.all Event.isLog = true ∧
      (t.CreateLockboxSecret m).1 = Event.secretCreate
        { folderId := t.conf.folderId
          name := Sprintf "%s-tf-state-manager-sa-access-key" [Arg.str t.conf.name]
          description := Sprintf "%s-tf-state-manager service account AWS access key"
            [Arg.str t.conf.name]
          labels := [(CreatedByLabelKey, CreatedByLabelValue)]
          versionPayloadEntries :=
            [ { key := LockboxSecretKeyAccessKeyId
                textValue := m.get LockboxSecretKeyAccessKeyId },
              { key := LockboxSecretKeySecretAccessKey
                textValue := m.get LockboxSecretKeySecretAccessKey } ] } :: logs := by
  unfold TerraformTemplater.CreateLockboxSecret
  cases t.sdk.secretCreate with
  | error err => exact ⟨[], rfl, rfl⟩
  | ok op =>
    cases op with
    | error err => exact ⟨[], rfl, rfl⟩
    | ok secretMeta => exact ⟨_, by rfl, rfl⟩

/-- The map `CreateStaticKey` returns holds the key id and the secret of the
response under the two fixed key names. -/
theorem CreateStaticKey_ok (t : TerraformTemplater) (saId : String) (m : GoMap)
    (h : (t.CreateStaticKey saId).2 = .ok m) :
    ∃ keyId secret, t.sdk.accessKeyCreate = .ok ⟨some ⟨keyId⟩, secret⟩ ∧
      m = [(LockboxSecretKeyAccessKeyId, keyId), (LockboxSecretKeySecretAccessKey, secret)] := by
  unfold TerraformTemplater.CreateStaticKey at h
  cases hk : t.sdk.accessKeyCreate with
  | error err => simp [hk] at h
  | ok op =>
    obtain ⟨accessKey, secret⟩ := op
    cases accessKey with
    | none => simp [hk] at h
    | some accessKey =>
      simp [hk] at h
      exact ⟨accessKey.keyId, secret, rfl, h.symm⟩

/-- The events of the output phase are an initial part of: two opens, the
encoding of the state descriptor, two printed lines, the encoding of the
access-key record. -/
theorem writeOutput_trace (env : Env) (bucketName saId lockboxSecretId : String) (m : GoMap) :
    ∃ rest, (writeOutput env bucketName saId lockboxSecretId m).trace ++ rest =
      [Event.openFile .state (O_WRONLY ||| O_CREATE) 0o775,
       Event.openFile .accessKey (O_WRONLY ||| O_CREATE) 0o775,
       Event.encode .state (.stateOutput
         { stateBucket := bucketName
           saId := saId
           lockboxSecretId := lockboxSecretId
           lockboxSecretKeys :=
             { accessKeyId := LockboxSecretKeyAccessKeyId
               secretAccessKey := LockboxSecretKeySecretAccessKey } }),
       Event.print (Sprintf "AccessKeyId: %v\n" [Arg.str (m.get LockboxSecretKeyAccessKeyId)]),
       Event.print
         (Sprintf "SecretAccessKey: %v\n" [Arg.str (m.get LockboxSecretKeySecretAccessKey)]),
       Event.encode .accessKey (.lockboxSecretKeys
         { accessKeyId := m.get LockboxSecretKeyAccessKeyId
           secretAccessKey := m.get LockboxSecretKeySecretAccessKey })] := by
  unfold writeOutput
  simp only []
  split
  · exact ⟨_, rfl⟩
  · split
    · exact ⟨_, rfl⟩
    · split
      · exact ⟨_, rfl⟩
      · split
        · exact ⟨[], rfl⟩
        · exact ⟨[], rfl⟩

/-- The output phase never ends at the exit of a provisioning step or of the
configuration load. -/
theorem writeOutput_outcome (env : Env) (bucketName saId lockboxSecretId : String) (m : GoMap) :
    (∀ n msg, (writeOutput env bucketName saId lockboxSecretId m).outcome ≠
      .fatal (.step n) msg) ∧
    (∀ msg, (writeOutput env bucketName saId lockboxSecretId m).outcome ≠
      .fatal .setupConf msg) := by
  unfold writeOutput
  simp only []
  split
  · simp
  · split
    · simp
    · split
      · simp
      · split <;> simp

/-- A property that holds of the request of a step and of every log line holds
of the trace of the step. -/
theorem step_all (P : Event → Bool) (hlog : ∀ line, P (.log line) = true)
    {req : Event} {trace : List Event}
    (htrace : ∃ logs, logs.all Event.isLog = true ∧ trace = req :: logs)
    (hreq : P req = true) : trace.all P = true := by
  obtain ⟨logs, hlogs, rfl⟩ := htrace
  rw [List.all_cons, hreq, all_of_isLog P hlog logs hlogs]
  rfl

/-- An error returned by the configuration load or by a step that was reached
makes `main` leave through the `log.Fatal` that follows it. -/
theorem error_exits (env : Env) :
    (∀ err, (SetupConf env).2 = .error err →
      (main env).outcome = .fatal .setupConf err.msg) ∧
    (∀ conf sdk, (SetupConf env).2 = .ok conf → env.sdkBuild = .ok sdk →
      (∀ err, ((NewTerraformTemplater sdk conf).CreateBucket env.rand).2 = .error err →
        (main env).outcome = .fatal (.step 1) err.msg) ∧
      (∀ bucketName err,
        ((NewTerraformTemplater sdk conf).CreateBucket env.rand).2 = .ok bucketName →
        (NewTerraformTemplater sdk conf).CreateServiceAccount.2 = .error err →
        (main env).outcome = .fatal (.step 2) err.msg) ∧
      (∀ bucketName saId err,
        ((NewTerraformTemplater sdk conf).CreateBucket env.rand).2 = .ok bucketName →
        (NewTerraformTemplater sdk conf).CreateServiceAccount.2 = .ok saId →
        ((NewTerraformTemplater sdk conf).AssignSaFolderStorageRoles saId).2 = some err →
        (main env).outcome = .fatal (.step 3) err.msg) ∧
      (∀ bucketName saId err,
        ((NewTerraformTemplater sdk conf).CreateBucket env.rand).2 = .ok bucketName →
        (NewTerraformTemplater sdk conf).CreateServiceAccount.2 = .ok saId →
        ((NewTerraformTemplater sdk conf).AssignSaFolderStorageRoles saId).2 = none →
        ((NewTerraformTemplater sdk conf).CreateStaticKey saId).2 = .error err →
        (main env).outcome = .fatal (.step 4) err.msg) ∧
      (∀ bucketName saId m err,
        ((NewTerraformTemplater sdk conf).CreateBucket env.rand).2 = .ok bucketName →
        (NewTerraformTemplater sdk conf).CreateServiceAccount.2 = .ok saId →
        ((NewTerraformTemplater sdk conf).AssignSaFolderStorageRoles saId).2 = none →
        ((NewTerraformTemplater sdk conf).CreateStaticKey saId).2 = .ok m →
        ((NewTerraformTemplater sdk conf).CreateLockboxSecret m).2 = .error err →
        (main env).outcome = .fatal (.step 5) err.msg)) := by
  refine ⟨fun err h => ?_, fun conf sdk hc hs => ⟨fun err h1 => ?_, fun b err h1 h2 => ?_,
    fun b saId err h1 h2 h3 => ?_, fun b saId err h1 h2 h3 h4 => ?_,
    fun b saId m err h1 h2 h3 h4 h5 => ?_⟩⟩
  · unfold main
    simp only [h]
  · unfold main
    simp only [hc, hs, h1]
  · unfold main
    simp only [hc, hs, h1, h2]
  · unfold main
    simp only [hc, hs, h1, h2, h3]
  · unfold main
    simp only [hc, hs, h1, h2, h3, h4]
  · unfold main
    simp only [hc, hs, h1, h2, h3, h4, h5]

/-- C2: when provisioning step `n` returns an error, `main` leaves through the
`log.Fatal` after that step (first part); in a run that leaves there, `n` is
one of 1 to 5, the call of step `n` was made, no call of a later step was
made, no output file was opened or written and the output files are as they
were (second part); and when the configuration load fails, no remote call was
made and no output file was touched (third part). -/
theorem main_short_circuit (env : Env) :
    ((∀ err, (SetupConf env).2 = .error err →
        (main env).outcome = .fatal .setupConf err.msg) ∧
      (∀ conf sdk, (SetupConf env).2 = .ok conf → env.sdkBuild = .ok sdk →
        (∀ err, ((NewTerraformTemplater sdk conf).CreateBucket env.rand).2 = .error err →
          (main env).outcome = .fatal (.step 1) err.msg) ∧
        (∀ bucketName err,
          ((NewTerraformTemplater sdk conf).CreateBucket env.rand).2 = .ok bucketName →
          (NewTerraformTemplater sdk conf).CreateServiceAccount.2 = .error err →
          (main env).outcome = .fatal (.step 2) err.msg) ∧
        (∀ bucketName saId err,
          ((NewTerraformTemplater sdk conf).CreateBucket env.rand).2 = .ok bucketName →
          (NewTerraformTemplater sdk conf).CreateServiceAccount.2 = .ok saId →
          ((NewTerraformTemplater sdk conf).AssignSaFolderStorageRoles saId).2 = some err →
          (main env).outcome = .fatal (.step 3) err.msg) ∧
        (∀ bucketName saId err,
          ((NewTerraformTemplater sdk conf).CreateBucket env.rand).2 = .ok bucketName →
          (NewTerraformTemplater sdk conf).CreateServiceAccount.2 = .ok saId →
          ((NewTerraformTemplater sdk conf).AssignSaFolderStorageRoles saId).2 = none →
          ((NewTerraformTemplater sdk conf).CreateStaticKey saId).2 = .error err →
          (main env).outcome = .fatal (.step 4) err.msg) ∧
        (∀ bucketName saId m err,
          ((NewTerraformTemplater sdk conf).CreateBucket env.rand).2 = .ok bucketName →
          (NewTerraformTemplater sdk conf).CreateServiceAccount.2 = .ok saId →
          ((NewTerraformTemplater sdk conf).AssignSaFolderStorageRoles saId).2 = none →
          ((NewTerraformTemplater sdk conf).CreateStaticKey saId).2 = .ok m →
          ((NewTerraformTemplater sdk conf).CreateLockboxSecret m).2 = .error err →
          (main env).outcome = .fatal (.step 5) err.msg))) ∧
    (∀ n msg, (main env).outcome = .fatal (.step n) msg →
      1 ≤ n ∧ n ≤ 5 ∧
      (main env).trace.any (fun e => e.step == some n) = true ∧
      (main env).trace.all (fun e => e.stepLe n && !e.isFileOutput) = true ∧
      (main env).files = env.files) ∧
    (∀ msg, (main env).outcome = .fatal .setupConf msg →
      (main env).trace.all (fun e => !e.isRemote && !e.isFileOutput) = true ∧
      (main env).files = env.files) := by
  refine ⟨error_exits env, ?_⟩
  refine main_cases env (fun r =>
    (∀ n msg, r.outcome = .fatal (.step n) msg →
      1 ≤ n ∧ n ≤ 5 ∧
      r.trace.any (fun e => e.step == some n) = true ∧
      r.trace.all (fun e => e.stepLe n && !e.isFileOutput) = true ∧
      r.files = env.files) ∧
    (∀ msg, r.outcome = .fatal .setupConf msg →
      r.trace.all (fun e => !e.isRemote && !e.isFileOutput) = true ∧
      r.files = env.files)) ?_ ?_ ?_ ?_ ?_ ?_ ?_ ?_ ?_
  · intro err _
    dsimp only
    refine ⟨fun n msg h => (nomatch h), fun msg _ => ⟨?_, rfl⟩⟩
    simp only [SetupConf_trace]
    rfl
  · intro conf err _ _
    dsimp only
    exact ⟨fun n msg h => (nomatch h), fun msg h => (nomatch h)⟩
  · intro conf sdk err _ _ _
    dsimp only
    refine ⟨fun n msg h => ?_, fun msg h => (nomatch h)⟩
    cases h
    obtain ⟨l1, -, e1⟩ := CreateBucket_trace (NewTerraformTemplater sdk conf) env.rand
    refine ⟨by decide, by decide, ?_, ?_, rfl⟩
    · simp [e1, Event.step]
    · simp only [List.all_append, Bool.and_eq_true, SetupConf_trace]
      exact ⟨⟨rfl, rfl⟩,
        step_all _ (fun _ => rfl) (CreateBucket_trace _ _) rfl⟩
  · intro conf sdk bucketName err _ _ _ _
    dsimp only
    refine ⟨fun n msg h => ?_, fun msg h => (nomatch h)⟩
    cases h
    obtain ⟨l2, -, e2⟩ := CreateServiceAccount_trace (NewTerraformTemplater sdk conf)
    refine ⟨by decide, by decide, ?_, ?_, rfl⟩
    · simp [e2, Event.step]
    · simp only [List.all_append, Bool.and_eq_true, SetupConf_trace]
      exact ⟨⟨⟨rfl, rfl⟩,
        step_all _ (fun _ => rfl) (CreateBucket_trace _ _) rfl⟩,
        step_all _ (fun _ => rfl) (CreateServiceAccount_trace _) rfl⟩
  · intro conf sdk bucketName saId err _ _ _ _ _
    dsimp only
    refine ⟨fun n msg h => ?_, fun msg h => (nomatch h)⟩
    cases h
    obtain ⟨l3, -, e3⟩ := AssignSaFolderStorageRoles_trace (NewTerraformTemplater sdk conf) saId
    refine ⟨by decide, by decide, ?_, ?_, rfl⟩
    · simp [e3, Event.step]
    · simp only [List.all_append, Bool.and_eq_true, SetupConf_trace]
      exact ⟨⟨⟨⟨rfl, rfl⟩,
        step_all _ (fun _ => rfl) (CreateBucket_trace _ _) rfl⟩,
        step_all _ (fun _ => rfl) (CreateServiceAccount_trace _) rfl⟩,
        step_all _ (fun _ => rfl) (AssignSaFolderStorageRoles_trace _ _) rfl⟩
  · intro conf sdk bucketName saId reason _ _ _ _ _ _
    dsimp only
    exact ⟨fun n msg h => (nomatch h), fun msg h => (nomatch h)⟩
  · intro conf sdk bucketName saId err _ _ _ _ _ _
    dsimp only
    refine ⟨fun n msg h => ?_, fun msg h => (nomatch h)⟩
    cases h
    obtain ⟨l4, -, e4⟩ := CreateStaticKey_trace (NewTerraformTemplater sdk conf) saId
    refine ⟨by decide, by decide, ?_, ?_, rfl⟩
    · simp [e4, Event.step]
    · simp only [List.all_append, Bool.and_eq_true, SetupConf_trace]
      exact ⟨⟨⟨⟨⟨rfl, rfl⟩,
        step_all _ (fun _ => rfl) (CreateBucket_trace _ _) rfl⟩,
        step_all _ (fun _ => rfl) (CreateServiceAccount_trace _) rfl⟩,
        step_all _ (fun _ => rfl) (AssignSaFolderStorageRoles_trace _ _) rfl⟩,
        step_all _ (fun _ => rfl) (CreateStaticKey_trace _ _) rfl⟩
  · intro conf sdk bucketName saId m err _ _ _ _ _ _ _
    dsimp only
    refine ⟨fun n msg h => ?_, fun msg h => (nomatch h)⟩
    cases h
    obtain ⟨l5, -, e5⟩ := CreateLockboxSecret_trace (NewTerraformTemplater sdk conf) m
    refine ⟨by decide, by decide, ?_, ?_, rfl⟩
    · simp [e5, Event.step]
    · simp only [List.all_append, Bool.and_eq_true, SetupConf_trace]
      exact ⟨⟨⟨⟨⟨⟨rfl, rfl⟩,
        step_all _ (fun _ => rfl) (CreateBucket_trace _ _) rfl⟩,
        step_all _ (fun _ => rfl) (CreateServiceAccount_trace _) rfl⟩,
        step_all _ (fun _ => rfl) (AssignSaFolderStorageRoles_trace _ _) rfl⟩,
        step_all _ (fun _ => rfl) (CreateStaticKey_trace _ _) rfl⟩,
        step_all _ (fun _ => rfl) (CreateLockboxSecret_trace _ _) rfl⟩
  · intro conf sdk bucketName saId m lockboxSecretId _ _ _ _ _ _ _
    dsimp only
    have hw := writeOutput_outcome env bucketName saId lockboxSecretId m
    exact ⟨fun n msg h => absurd h (hw.1 n msg), fun msg h => absurd h (hw.2 msg)⟩

/-- Witness of C2: in the scenario whose role-grant call fails, step 3 returns
an error, the run leaves at step 3, and the conclusions hold of it. -/
theorem main_short_circuit_witness :
    (main grantFailsEnv).outcome = .fatal (.step 3)
      "failed to assign \"storage.\x7bviewer,uploader\x7d\" roles to service account \"deadline exceeded-tf-state-manager\": %!v(MISSING)" ∧
    (main grantFailsEnv).trace.all (fun e => e.stepLe 3 && !e.isFileOutput) = true ∧
    (main grantFailsEnv).files = grantFailsEnv.files :=
  ⟨((main_short_circuit grantFailsEnv).1.2 ⟨"demo", "fld-1"⟩
      { demoSDK with updateAccessBindings := some ⟨"*status.Error", "deadline exceeded"⟩ }
      rfl rfl).2.2.1 "demo-tf-state-aebagbafay" "sa-1"
      (errorsNew
        "failed to assign \"storage.\x7bviewer,uploader\x7d\" roles to service account \"deadline exceeded-tf-state-manager\": %!v(MISSING)")
      rfl rfl rfl,
    ((main_short_circuit grantFailsEnv).2.1 3
      "failed to assign \"storage.\x7bviewer,uploader\x7d\" roles to service account \"deadline exceeded-tf-state-manager\": %!v(MISSING)"
      rfl).2.2.2⟩

/-! ## The requests -/

/-- C7: for every service-account id and every configuration, the request of
`AssignSaFolderStorageRoles` targets the folder of the configuration and holds
exactly two deltas, both with action `ADD`, for the roles `storage.viewer` and
`storage.uploader` in that order, each for the subject of type
`serviceAccount` with the given id; the step sends nothing else. -/
theorem AssignSaFolderStorageRoles_request (t : TerraformTemplater) (saId : String) :
    (t.AssignSaFolderStorageRoles saId).1.head? = some (Event.updateAccessBindings
      { resourceId := t.conf.folderId
        accessBindingDeltas :=
          [ { action := AccessBindingAction.ADD
              accessBinding :=
                { roleId := "storage.viewer"
                  subject := { id := saId, type := "serviceAccount" } } },
            { action := AccessBindingAction.ADD
              accessBinding :=
                { roleId := "storage.uploader"
                  subject := { id := saId, type := "serviceAccount" } } } ] }) ∧
    (t.AssignSaFolderStorageRoles saId).1.tail.all Event.isLog = true := by
  obtain ⟨logs, hlogs, htrace⟩ := AssignSaFolderStorageRoles_trace t saId
  rw [htrace]
  exact ⟨rfl, hlogs⟩

/-- C8, as the specification states it, fails: in the scenario run the create
request of the access key carries no `created_by` marker. -/
theorem created_by_on_every_create_fails :
    ¬ (main demoEnv).trace.all (fun e => !e.isCreate || e.carriesCreatedBy) = true := by
  decide

/-- C8, amended: in every run, each create request for the bucket, the
service account and the secret carries the `created_by` marker with the fixed
value, and the create request for the access key carries no label or tag. -/
theorem created_by_on_labelled_creates (env : Env) :
    (main env).trace.all (fun e =>
      if e.step = some 4 then e.marks.isEmpty else !e.isCreate || e.carriesCreatedBy) = true := by
  refine main_cases env (fun r => r.trace.all (fun e =>
      if e.step = some 4 then e.marks.isEmpty else !e.isCreate || e.carriesCreatedBy) = true)
    ?_ ?_ ?_ ?_ ?_ ?_ ?_ ?_ ?_
  · intro err _
    dsimp only
    rw [SetupConf_trace]
    rfl
  · intro conf err _ _
    dsimp only
    rw [SetupConf_trace]
    rfl
  · intro conf sdk err _ _ _
    dsimp only
    simp only [List.all_append, Bool.and_eq_true, SetupConf_trace]
    exact ⟨⟨rfl, rfl⟩,
      step_all _ (fun _ => rfl) (CreateBucket_trace _ _) rfl⟩
  · intro conf sdk bucketName err _ _ _ _
    dsimp only
    simp only [List.all_append, Bool.and_eq_true, SetupConf_trace]
    exact ⟨⟨⟨rfl, rfl⟩,
      step_all _ (fun _ => rfl) (CreateBucket_trace _ _) rfl⟩,
      step_all _ (fun _ => rfl) (CreateServiceAccount_trace _) rfl⟩
  · intro conf sdk bucketName saId err _ _ _ _ _
    dsimp only
    simp only [List.all_append, Bool.and_eq_true, SetupConf_trace]
    exact ⟨⟨⟨⟨rfl, rfl⟩,
      step_all _ (fun _ => rfl) (CreateBucket_trace _ _) rfl⟩,
      step_all _ (fun _ => rfl) (CreateServiceAccount_trace _) rfl⟩,
      step_all _ (fun _ => rfl) (AssignSaFolderStorageRoles_trace _ _) rfl⟩
  · intro conf sdk bucketName saId reason _ _ _ _ _ _
    dsimp only
    simp only [List.all_append, Bool.and_eq_true, SetupConf_trace]
    exact ⟨⟨⟨⟨⟨rfl, rfl⟩,
      step_all _ (fun _ => rfl) (CreateBucket_trace _ _) rfl⟩,
      step_all _ (fun _ => rfl) (CreateServiceAccount_trace _) rfl⟩,
      step_all _ (fun _ => rfl) (AssignSaFolderStorageRoles_trace _ _) rfl⟩,
      step_all _ (fun _ => rfl) (CreateStaticKey_trace _ _) rfl⟩
  · intro conf sdk bucketName saId err _ _ _ _ _ _
    dsimp only
    simp only [List.all_append, Bool.and_eq_true, SetupConf_trace]
    exact ⟨⟨⟨⟨⟨rfl, rfl⟩,
      step_all _ (fun _ => rfl) (CreateBucket_trace _ _) rfl⟩,
      step_all _ (fun _ => rfl) (CreateServiceAccount_trace _) rfl⟩,
      step_all _ (fun _ => rfl) (AssignSaFolderStorageRoles_trace _ _) rfl⟩,
      step_all _ (fun _ => rfl) (CreateStaticKey_trace _ _) rfl⟩
  · intro conf sdk bucketName saId m err _ _ _ _ _ _ _
    dsimp only
    simp only [List.all_append, Bool.and_eq_true, SetupConf_trace]
    exact ⟨⟨⟨⟨⟨⟨rfl, rfl⟩,
      step_all _ (fun _ => rfl) (CreateBucket_trace _ _) rfl⟩,
      step_all _ (fun _ => rfl) (CreateServiceAccount_trace _) rfl⟩,
      step_all _ (fun _ => rfl) (AssignSaFolderStorageRoles_trace _ _) rfl⟩,
      step_all _ (fun _ => rfl) (CreateStaticKey_trace _ _) rfl⟩,
      step_all _ (fun _ => rfl) (CreateLockboxSecret_trace _ _) rfl⟩
  · intro conf sdk bucketName saId m lockboxSecretId _ _ _ _ _ _ _
    dsimp only
    simp only [List.all_append, Bool.and_eq_true, SetupConf_trace]
    refine ⟨⟨⟨⟨⟨⟨⟨rfl, rfl⟩,
      step_all _ (fun _ => rfl) (CreateBucket_trace _ _) rfl⟩,
      step_all _ (fun _ => rfl) (CreateServiceAccount_trace _) rfl⟩,
      step_all _ (fun _ => rfl) (AssignSaFolderStorageRoles_trace _ _) rfl⟩,
      step_all _ (fun _ => rfl) (CreateStaticKey_trace _ _) rfl⟩,
      step_all _ (fun _ => rfl) (CreateLockboxSecret_trace _ _) rfl⟩, ?_⟩
    obtain ⟨rest, hrest⟩ := writeOutput_trace env bucketName saId lockboxSecretId m
    have hall : ((writeOutput env bucketName saId lockboxSecretId m).trace ++ rest).all
        (fun e => if e.step = some 4 then e.marks.isEmpty
          else !e.isCreate || e.carriesCreatedBy) = true := by
      rw [hrest]
      rfl
    rw [List.all_append, Bool.and_eq_true] at hall
    exact hall.1

/-! ## The error of the role-grant step -/

/-- The text `fmt.Errorf` produces in `AssignSaFolderStorageRoles`: the single
operand is consumed by `%s`, and `%v` finds no operand. -/
theorem Errorf_assign_roles (cause : Error) :
    Errorf
      "failed to assign \"storage.\x7bviewer,uploader\x7d\" roles to service account \"%s-tf-state-manager\": %v"
      [Arg.err cause] =
    errorsNew ("failed to assign \"storage.\x7bviewer,uploader\x7d\" roles to service account \"" ++
      cause.msg ++ "-tf-state-manager\": %!v(MISSING)") := by
  rfl

/-- C9, as the specification states it, fails: two causes with different
messages give two different error messages. -/
theorem assign_roles_error_keeps_cause :
    ¬ (((grantFailsWith ⟨"*status.Error", "deadline exceeded"⟩).AssignSaFolderStorageRoles
          "sa-1").2.map Error.msg =
       ((grantFailsWith ⟨"*status.Error", "permission denied"⟩).AssignSaFolderStorageRoles
          "sa-1").2.map Error.msg) := by
  decide

/-- C9, amended: when the remote role-grant call fails with `cause`, the
error of `AssignSaFolderStorageRoles` has the message of `cause` where the
format expects the service-account name, and `%!v(MISSING)` where it expects
the cause; so two failures whose returned errors are equal have causes with
the same message, and the configured name does not occur in the message. -/
theorem AssignSaFolderStorageRoles_error (t : TerraformTemplater) (saId : String)
    (cause : Error) (h : t.sdk.updateAccessBindings = some cause) :
    (t.AssignSaFolderStorageRoles saId).2 = some (errorsNew
      ("failed to assign \"storage.\x7bviewer,uploader\x7d\" roles to service account \"" ++
        cause.msg ++ "-tf-state-manager\": %!v(MISSING)")) ∧
    (∀ (t2 : TerraformTemplater) (saId2 : String) (cause2 : Error),
      t2.sdk.updateAccessBindings = some cause2 →
      (t2.AssignSaFolderStorageRoles saId2).2 = (t.AssignSaFolderStorageRoles saId).2 →
      cause2.msg = cause.msg) := by
  have key : ∀ (u : TerraformTemplater) (s : String) (c : Error),
      u.sdk.updateAccessBindings = some c →
      (u.AssignSaFolderStorageRoles s).2 = some (errorsNew
        ("failed to assign \"storage.\x7bviewer,uploader\x7d\" roles to service account \"" ++
          c.msg ++ "-tf-state-manager\": %!v(MISSING)")) := by
    intro u s c hc
    unfold TerraformTemplater.AssignSaFolderStorageRoles
    simp only [hc]
    rw [Errorf_assign_roles]
  refine ⟨key t saId cause h, ?_⟩
  intro t2 saId2 cause2 h2 heq
  rw [key t saId cause h, key t2 saId2 cause2 h2] at heq
  simp only [errorsNew, Option.some.injEq, Error.mk.injEq, true_and] at heq
  have hd := congrArg String.data heq
  simp only [String.data_append, List.append_assoc] at hd
  have hd2 := List.append_cancel_left hd
  have hd3 := List.append_cancel_right hd2
  exact String.ext hd3

/-- Witness of C9: the role-grant call fails with `deadline exceeded`. -/
theorem AssignSaFolderStorageRoles_error_witness :
    ((grantFailsWith ⟨"*status.Error", "deadline exceeded"⟩).AssignSaFolderStorageRoles
      "sa-1").2 = some (errorsNew
      ("failed to assign \"storage.\x7bviewer,uploader\x7d\" roles to service account \"" ++
        "deadline exceeded" ++ "-tf-state-manager\": %!v(MISSING)")) :=
  (AssignSaFolderStorageRoles_error (grantFailsWith ⟨"*status.Error", "deadline exceeded"⟩)
    "sa-1" ⟨"*status.Error", "deadline exceeded"⟩ rfl).1

/-! ## The output files -/

/-- With the flags of `main` (write-only, create; neither truncate nor append)
an open that the environment does not refuse yields the old bytes of the file,
or no bytes for a new file, with the offset at the start. -/
theorem OpenFile_main_flags (old : Option (List Nat)) :
    OpenFile none old (O_WRONLY ||| O_CREATE) = .ok ⟨old.getD [], 0, false⟩ := by
  cases old <;> rfl

/-- One write at the end of what has been written so far. -/
theorem write_after (written old data : List Nat) :
    OpenedFile.write ⟨written ++ old.drop written.length, written.length, false⟩ data =
      ⟨(written ++ data) ++ old.drop (written ++ data).length, (written ++ data).length,
        false⟩ := by
  simp only [OpenedFile.write, Bool.false_eq_true, if_false, OpenedFile.mk.injEq, and_true,
    List.length_append]
  have hz : written.length - (written.length + (List.drop written.length old).length) = 0 := by
    omega
  rw [List.take_left, hz, List.drop_append, List.drop_drop]
  simp

/-- A sequence of writes from the start of a file replaces the first bytes of
the file and leaves the bytes beyond the written range as they were. -/
theorem writeAll_after (old : List Nat) (chunks : List (List Nat)) :
    ∀ written : List Nat,
      (OpenedFile.writeAll ⟨written ++ old.drop written.length, written.length, false⟩
        chunks).content =
        (written ++ chunks.flatten) ++ old.drop (written ++ chunks.flatten).length := by
  induction chunks with
  | nil => intro written; simp [OpenedFile.writeAll]
  | cons data chunks ih =>
    intro written
    have h := ih (written ++ data)
    simp only [OpenedFile.writeAll, List.foldl_cons, List.flatten_cons] at h ⊢
    rw [write_after, h]
    simp [List.append_assoc]

theorem writeAll_from_start (old : List Nat) (chunks : List (List Nat)) :
    (OpenedFile.writeAll ⟨old, 0, false⟩ chunks).content =
      chunks.flatten ++ old.drop chunks.flatten.length := by
  have h := writeAll_after old chunks []
  simpa using h

/-- A successful output phase: its six events and the bytes of the two files;
the state descriptor and the bytes of `state.yaml` are the same whatever map
of credentials `m2` the phase is given. -/
theorem writeOutput_ok (env : Env) (bucketName saId lockboxSecretId : String) (m m2 : GoMap)
    (h : (writeOutput env bucketName saId lockboxSecretId m).outcome = .ok) :
    (writeOutput env bucketName saId lockboxSecretId m).trace =
      [Event.openFile .state (O_WRONLY ||| O_CREATE) 0o775,
       Event.openFile .accessKey (O_WRONLY ||| O_CREATE) 0o775,
       Event.encode .state (.stateOutput
         { stateBucket := bucketName
           saId := saId
           lockboxSecretId := lockboxSecretId
           lockboxSecretKeys :=
             { accessKeyId := LockboxSecretKeyAccessKeyId
               secretAccessKey := LockboxSecretKeySecretAccessKey } }),
       Event.print (Sprintf "AccessKeyId: %v\n" [Arg.str (m.get LockboxSecretKeyAccessKeyId)]),
       Event.print
         (Sprintf "SecretAccessKey: %v\n" [Arg.str (m.get LockboxSecretKeySecretAccessKey)]),
       Event.encode .accessKey (.lockboxSecretKeys
         { accessKeyId := m.get LockboxSecretKeyAccessKeyId
           secretAccessKey := m.get LockboxSecretKeySecretAccessKey })] ∧
    (writeOutput env bucketName saId lockboxSecretId m).files .state =
      some ((OpenedFile.writeAll ⟨(env.files .state).getD [], 0, false⟩
        (env.yamlEncode .state (.stateOutput
          { stateBucket := bucketName
            saId := saId
            lockboxSecretId := lockboxSecretId
            lockboxSecretKeys :=
              { accessKeyId := LockboxSecretKeyAccessKeyId
                secretAccessKey := LockboxSecretKeySecretAccessKey } })).chunks).content) ∧
    (writeOutput env bucketName saId lockboxSecretId m).files .accessKey =
      some ((OpenedFile.writeAll ⟨(env.files .accessKey).getD [], 0, false⟩
        (env.yamlEncode .accessKey (.lockboxSecretKeys
          { accessKeyId := m.get LockboxSecretKeyAccessKeyId
            secretAccessKey := m.get LockboxSecretKeySecretAccessKey })).chunks).content) ∧
    stateDescriptor (writeOutput env bucketName saId lockboxSecretId m2).trace =
      stateDescriptor (writeOutput env bucketName saId lockboxSecretId m).trace ∧
    (writeOutput env bucketName saId lockboxSecretId m2).files .state =
      (writeOutput env bucketName saId lockboxSecretId m).files .state := by
  unfold writeOutput at h ⊢
  cases hd1 : env.openDenied .state with
  | some err => simp [hd1, OpenFile] at h
  | none =>
    cases hd2 : env.openDenied .accessKey with
    | some err =>
      simp only [hd1, hd2, OpenFile_main_flags] at h
      simp [OpenFile] at h
    | none =>
      simp only [hd1, hd2, OpenFile_main_flags] at h ⊢
      cases he1 : (env.yamlEncode .state (.stateOutput
          { stateBucket := bucketName
            saId := saId
            lockboxSecretId := lockboxSecretId
            lockboxSecretKeys :=
              { accessKeyId := LockboxSecretKeyAccessKeyId
                secretAccessKey := LockboxSecretKeySecretAccessKey } })).err with
      | some err => simp [he1] at h
      | none =>
        simp only [he1] at h ⊢
        cases he2 : (env.yamlEncode .accessKey (.lockboxSecretKeys
            { accessKeyId := m.get LockboxSecretKeyAccessKeyId
              secretAccessKey := m.get LockboxSecretKeySecretAccessKey })).err with
        | some err => simp [he2] at h
        | none =>
          simp only [he2]
          refine ⟨rfl, ?_, ?_, ?_, ?_⟩
          · simp [setFile]
          · simp [setFile]
          · split <;> rfl
          · split <;> simp [setFile]

/-- A run that ends well went through the five steps and the output phase. -/
theorem main_ok (env : Env) (h : (main env).outcome = .ok) :
    ∃ conf sdk bucketName saId m lockboxSecretId,
      (SetupConf env).2 = .ok conf ∧ env.sdkBuild = .ok sdk ∧
      ((NewTerraformTemplater sdk conf).CreateBucket env.rand).2 = .ok bucketName ∧
      (NewTerraformTemplater sdk conf).CreateServiceAccount.2 = .ok saId ∧
      ((NewTerraformTemplater sdk conf).AssignSaFolderStorageRoles saId).2 = none ∧
      ((NewTerraformTemplater sdk conf).CreateStaticKey saId).2 = .ok m ∧
      ((NewTerraformTemplater sdk conf).CreateLockboxSecret m).2 = .ok lockboxSecretId ∧
      (writeOutput env bucketName saId lockboxSecretId m).outcome = .ok ∧
      (main env).trace = (SetupConf env).1 ++ [Event.sdkBuild] ++
          ((NewTerraformTemplater sdk conf).CreateBucket env.rand).1 ++
          (NewTerraformTemplater sdk conf).CreateServiceAccount.1 ++
          ((NewTerraformTemplater sdk conf).AssignSaFolderStorageRoles saId).1 ++
          ((NewTerraformTemplater sdk conf).CreateStaticKey saId).1 ++
          ((NewTerraformTemplater sdk conf).CreateLockboxSecret m).1 ++
          (writeOutput env bucketName saId lockboxSecretId m).trace ∧
      (main env).files = (writeOutput env bucketName saId lockboxSecretId m).files := by
  revert h
  refine main_cases env (fun r => r.outcome = .ok →
    ∃ conf sdk bucketName saId m lockboxSecretId,
      (SetupConf env).2 = .ok conf ∧ env.sdkBuild = .ok sdk ∧
      ((NewTerraformTemplater sdk conf).CreateBucket env.rand).2 = .ok bucketName ∧
      (NewTerraformTemplater sdk conf).CreateServiceAccount.2 = .ok saId ∧
      ((NewTerraformTemplater sdk conf).AssignSaFolderStorageRoles saId).2 = none ∧
      ((NewTerraformTemplater sdk conf).CreateStaticKey saId).2 = .ok m ∧
      ((NewTerraformTemplater sdk conf).CreateLockboxSecret m).2 = .ok lockboxSecretId ∧
      (writeOutput env bucketName saId lockboxSecretId m).outcome = .ok ∧
      r.trace = (SetupConf env).1 ++ [Event.sdkBuild] ++
          ((NewTerraformTemplater sdk conf).CreateBucket env.rand).1 ++
          (NewTerraformTemplater sdk conf).CreateServiceAccount.1 ++
          ((NewTerraformTemplater sdk conf).AssignSaFolderStorageRoles saId).1 ++
          ((NewTerraformTemplater sdk conf).CreateStaticKey saId).1 ++
          ((NewTerraformTemplater sdk conf).CreateLockboxSecret m).1 ++
          (writeOutput env bucketName saId lockboxSecretId m).trace ∧
      r.files = (writeOutput env bucketName saId lockboxSecretId m).files)
    ?_ ?_ ?_ ?_ ?_ ?_ ?_ ?_ ?_
  · intro err _ h
    cases h
  · intro conf err _ _ h
    cases h
  · intro conf sdk err _ _ _ h
    cases h
  · intro conf sdk bucketName err _ _ _ _ h
    cases h
  · intro conf sdk bucketName saId err _ _ _ _ _ h
    cases h
  · intro conf sdk bucketName saId reason _ _ _ _ _ _ h
    cases h
  · intro conf sdk bucketName saId err _ _ _ _ _ _ h
    cases h
  · intro conf sdk bucketName saId m err _ _ _ _ _ _ _ h
    cases h
  · intro conf sdk bucketName saId m lockboxSecretId hc hs h1 h2 h3 h4 h5 h
    exact ⟨conf, sdk, bucketName, saId, m, lockboxSecretId, hc, hs, h1, h2, h3, h4, h5, h,
      rfl, rfl⟩

/-- No step opens or writes an output file. -/
theorem steps_no_file_output (env : Env) (t : TerraformTemplater) (rnd : List Nat)
    (saId : String) (m : GoMap) :
    ((SetupConf env).1 ++ [Event.sdkBuild] ++ (t.CreateBucket rnd).1 ++
      t.CreateServiceAccount.1 ++ (t.AssignSaFolderStorageRoles saId).1 ++
      (t.CreateStaticKey saId).1 ++ (t.CreateLockboxSecret m).1).all
        (fun e => !e.isFileOutput) = true := by
  simp only [List.all_append, Bool.and_eq_true, SetupConf_trace]
  exact ⟨⟨⟨⟨⟨⟨rfl, rfl⟩,
    step_all _ (fun _ => rfl) (CreateBucket_trace _ _) rfl⟩,
    step_all _ (fun _ => rfl) (CreateServiceAccount_trace _) rfl⟩,
    step_all _ (fun _ => rfl) (AssignSaFolderStorageRoles_trace _ _) rfl⟩,
    step_all _ (fun _ => rfl) (CreateStaticKey_trace _ _) rfl⟩,
    step_all _ (fun _ => rfl) (CreateLockboxSecret_trace _ _) rfl⟩

/-- The state descriptor of a trace is found after the events that touch no
output file. -/
theorem stateDescriptor_append (pre post : List Event)
    (hpre : pre.all (fun e => !e.isFileOutput) = true) :
    stateDescriptor (pre ++ post) = stateDescriptor post := by
  induction pre with
  | nil => rfl
  | cons e pre ih =>
    rw [List.all_cons, Bool.and_eq_true] at hpre
    have he : (match e with
        | .encode .state (.stateOutput out) => some out
        | _ => none) = none := by
      cases e <;> first | rfl | simp [Event.isFileOutput] at hpre
    simp only [stateDescriptor, List.cons_append, List.findSome?_cons, he]
    exact ih hpre.2

/-- C10: the output files are opened write-only with create, without truncate
or append.  In a run that ends well, a file that held `old` before the run
holds afterwards the encoded output followed by the bytes of `old` beyond the
length of the output; it equals the encoded output exactly when `old` is not
longer than the output. -/
theorem output_write_keeps_tail (env : Env) (file : OutFile) (old : List Nat)
    (hok : (main env).outcome = .ok) (hold : env.files file = some old) :
    ∃ doc,
      Event.openFile file (O_WRONLY ||| O_CREATE) 0o775 ∈ (main env).trace ∧
      Event.encode file doc ∈ (main env).trace ∧
      (main env).files file =
        some ((env.yamlEncode file doc).chunks.flatten ++
          old.drop (env.yamlEncode file doc).chunks.flatten.length) ∧
      ((main env).files file = some (env.yamlEncode file doc).chunks.flatten ↔
        old.length ≤ (env.yamlEncode file doc).chunks.flatten.length) := by
  obtain ⟨conf, sdk, bucketName, saId, m, lockboxSecretId, -, -, -, -, -, -, -, hw, htrace,
    hfiles⟩ := main_ok env hok
  obtain ⟨hwt, hstate, hkey, -, -⟩ :=
    writeOutput_ok env bucketName saId lockboxSecretId m m hw
  rw [htrace, hfiles, hwt]
  cases file with
  | state =>
    refine ⟨.stateOutput
      { stateBucket := bucketName
        saId := saId
        lockboxSecretId := lockboxSecretId
        lockboxSecretKeys :=
          { accessKeyId := LockboxSecretKeyAccessKeyId
            secretAccessKey := LockboxSecretKeySecretAccessKey } },
      List.mem_append_right _ (by simp), List.mem_append_right _ (by simp), ?_, ?_⟩
    · rw [hstate, hold, Option.getD_some, writeAll_from_start]
    · rw [hstate, hold, Option.getD_some, writeAll_from_start]
      simp
  | accessKey =>
    refine ⟨.lockboxSecretKeys
      { accessKeyId := m.get LockboxSecretKeyAccessKeyId
        secretAccessKey := m.get LockboxSecretKeySecretAccessKey },
      List.mem_append_right _ (by simp), List.mem_append_right _ (by simp), ?_, ?_⟩
    · rw [hkey, hold, Option.getD_some, writeAll_from_start]
    · rw [hkey, hold, Option.getD_some, writeAll_from_start]
      simp

/-- Witness of C10: in the scenario run `state.yaml` held five bytes and the
encoder wrote three; the last two old bytes are still there. -/
theorem output_write_keeps_tail_witness :
    ∃ doc,
      Event.openFile .state (O_WRONLY ||| O_CREATE) 0o775 ∈ (main demoEnv).trace ∧
      Event.encode .state doc ∈ (main demoEnv).trace ∧
      (main demoEnv).files .state =
        some ((demoEnv.yamlEncode .state doc).chunks.flatten ++
          [9, 9, 9, 9, 9].drop (demoEnv.yamlEncode .state doc).chunks.flatten.length) ∧
      ((main demoEnv).files .state = some (demoEnv.yamlEncode .state doc).chunks.flatten ↔
        [9, 9, 9, 9, 9].length ≤ (demoEnv.yamlEncode .state doc).chunks.flatten.length) :=
  output_write_keeps_tail demoEnv .state [9, 9, 9, 9, 9] rfl rfl

/-- C4: in a run that ends well, the state descriptor handed to the encoder of
`state.yaml` holds under `secretKeys` the two fixed key names, not the
credentials; and a run that differs only in the key id and the secret returned
by step 4 hands over the same descriptor and leaves the same bytes in
`state.yaml`. -/
theorem state_descriptor_without_secret (env : Env) (sdk : SDK) (keyId2 secret2 : String)
    (hsdk : env.sdkBuild = .ok sdk) (hok : (main env).outcome = .ok) :
    ∃ out, stateDescriptor (main env).trace = some out ∧
      out.lockboxSecretKeys =
        { accessKeyId := "access_key_id", secretAccessKey := "secret_access_key" } ∧
      stateDescriptor (main { env with
        sdkBuild := .ok { sdk with accessKeyCreate := .ok ⟨some ⟨keyId2⟩, secret2⟩ } }).trace =
        some out ∧
      (main { env with
        sdkBuild := .ok { sdk with accessKeyCreate := .ok ⟨some ⟨keyId2⟩, secret2⟩ } }).files
          .state = (main env).files .state := by
  obtain ⟨conf, sdk1, bucketName, saId, m, lockboxSecretId, hc, hs, h1, h2, h3, h4, h5, hw,
    htrace, hfiles⟩ := main_ok env hok
  rw [hsdk] at hs
  cases hs
  obtain ⟨hwt, -, -, hdesc, hstate⟩ :=
    writeOutput_ok env bucketName saId lockboxSecretId m
      [(LockboxSecretKeyAccessKeyId, keyId2), (LockboxSecretKeySecretAccessKey, secret2)] hw
  have h5b : ((NewTerraformTemplater sdk conf).CreateLockboxSecret
      [(LockboxSecretKeyAccessKeyId, keyId2), (LockboxSecretKeySecretAccessKey, secret2)]).2 =
      .ok lockboxSecretId := by
    rw [← h5]
    unfold TerraformTemplater.CreateLockboxSecret
    cases (NewTerraformTemplater sdk conf).sdk.secretCreate with
    | error err => rfl
    | ok op =>
      cases op with
      | error err => rfl
      | ok secretMeta => rfl
  have hrun : main { env with
      sdkBuild := .ok { sdk with accessKeyCreate := .ok ⟨some ⟨keyId2⟩, secret2⟩ } } =
      ⟨(SetupConf env).1 ++ [Event.sdkBuild] ++
          ((NewTerraformTemplater sdk conf).CreateBucket env.rand).1 ++
          (NewTerraformTemplater sdk conf).CreateServiceAccount.1 ++
          ((NewTerraformTemplater sdk conf).AssignSaFolderStorageRoles saId).1 ++
          ((NewTerraformTemplater { sdk with
            accessKeyCreate := .ok ⟨some ⟨keyId2⟩, secret2⟩ } conf).CreateStaticKey saId).1 ++
          ((NewTerraformTemplater sdk conf).CreateLockboxSecret
            [(LockboxSecretKeyAccessKeyId, keyId2),
              (LockboxSecretKeySecretAccessKey, secret2)]).1 ++
          (writeOutput env bucketName saId lockboxSecretId
            [(LockboxSecretKeyAccessKeyId, keyId2),
              (LockboxSecretKeySecretAccessKey, secret2)]).trace,
        (writeOutput env bucketName saId lockboxSecretId
          [(LockboxSecretKeyAccessKeyId, keyId2),
            (LockboxSecretKeySecretAccessKey, secret2)]).files,
        (writeOutput env bucketName saId lockboxSecretId
          [(LockboxSecretKeyAccessKeyId, keyId2),
            (LockboxSecretKeySecretAccessKey, secret2)]).outcome⟩ := by
    have e0 : SetupConf { env with
        sdkBuild := .ok { sdk with accessKeyCreate := .ok ⟨some ⟨keyId2⟩, secret2⟩ } } =
        SetupConf env := rfl
    have e1 : (NewTerraformTemplater { sdk with
        accessKeyCreate := .ok ⟨some ⟨keyId2⟩, secret2⟩ } conf).CreateBucket env.rand =
        (NewTerraformTemplater sdk conf).CreateBucket env.rand := rfl
    have e2 : (NewTerraformTemplater { sdk with
        accessKeyCreate := .ok ⟨some ⟨keyId2⟩, secret2⟩ } conf).CreateServiceAccount =
        (NewTerraformTemplater sdk conf).CreateServiceAccount := rfl
    have e3 : (NewTerraformTemplater { sdk with
        accessKeyCreate := .ok ⟨some ⟨keyId2⟩, secret2⟩ } conf).AssignSaFolderStorageRoles saId =
        (NewTerraformTemplater sdk conf).AssignSaFolderStorageRoles saId := rfl
    have e4 : ((NewTerraformTemplater { sdk with
        accessKeyCreate := .ok ⟨some ⟨keyId2⟩, secret2⟩ } conf).CreateStaticKey saId).2 =
        .ok [(LockboxSecretKeyAccessKeyId, keyId2),
          (LockboxSecretKeySecretAccessKey, secret2)] := rfl
    have e5 : ∀ m2, (NewTerraformTemplater { sdk with
        accessKeyCreate := .ok ⟨some ⟨keyId2⟩, secret2⟩ } conf).CreateLockboxSecret m2 =
        (NewTerraformTemplater sdk conf).CreateLockboxSecret m2 := fun _ => rfl
    have e6 : ∀ m2, writeOutput { env with
        sdkBuild := .ok { sdk with accessKeyCreate := .ok ⟨some ⟨keyId2⟩, secret2⟩ } }
          bucketName saId lockboxSecretId m2 =
        writeOutput env bucketName saId lockboxSecretId m2 := fun _ => rfl
    unfold main
    simp only [e0, hc, e1, h1, e2, h2, e3, h3, e4, e5, h5b, e6]
  have hpre := steps_no_file_output env (NewTerraformTemplater sdk conf) env.rand saId m
  have hpre2 : ((SetupConf env).1 ++ [Event.sdkBuild] ++
      ((NewTerraformTemplater sdk conf).CreateBucket env.rand).1 ++
      (NewTerraformTemplater sdk conf).CreateServiceAccount.1 ++
      ((NewTerraformTemplater sdk conf).AssignSaFolderStorageRoles saId).1 ++
      ((NewTerraformTemplater { sdk with
        accessKeyCreate := .ok ⟨some ⟨keyId2⟩, secret2⟩ } conf).CreateStaticKey saId).1 ++
      ((NewTerraformTemplater sdk conf).CreateLockboxSecret
        [(LockboxSecretKeyAccessKeyId, keyId2),
          (LockboxSecretKeySecretAccessKey, secret2)]).1).all
        (fun e => !e.isFileOutput) = true :=
    steps_no_file_output env (NewTerraformTemplater { sdk with
      accessKeyCreate := .ok ⟨some ⟨keyId2⟩, secret2⟩ } conf) env.rand saId _
  refine ⟨{ stateBucket := bucketName
            saId := saId
            lockboxSecretId := lockboxSecretId
            lockboxSecretKeys :=
              { accessKeyId := LockboxSecretKeyAccessKeyId
                secretAccessKey := LockboxSecretKeySecretAccessKey } }, ?_, rfl, ?_, ?_⟩
  · rw [htrace, stateDescriptor_append _ _ hpre, hwt]
    rfl
  · rw [hrun]
    dsimp only
    rw [stateDescriptor_append _ _ hpre2, hdesc, hwt]
    rfl
  · rw [hrun, hfiles]
    exact hstate

/-- Witness of C4: the scenario run, against a run whose step 4 returns
another key id and another secret. -/
theorem state_descriptor_without_secret_witness :
    ∃ out, stateDescriptor (main demoEnv).trace = some out ∧
      out.lockboxSecretKeys =
        { accessKeyId := "access_key_id", secretAccessKey := "secret_access_key" } ∧
      stateDescriptor (main { demoEnv with
        sdkBuild := .ok { demoSDK with accessKeyCreate := .ok ⟨some ⟨"key-2"⟩, "0ther"⟩ } }).trace =
        some out ∧
      (main { demoEnv with
        sdkBuild := .ok { demoSDK with accessKeyCreate := .ok ⟨some ⟨"key-2"⟩, "0ther"⟩ } }).files
          .state = (main demoEnv).files .state :=
  state_descriptor_without_secret demoEnv demoSDK "key-2" "0ther" rfl rfl

/-- The credentials map built from a response holds its key id and secret. -/
theorem CreateStaticKey_map (sdk : SDK) (conf : Config) (saId keyId secret : String) (m : GoMap)
    (hkey : sdk.accessKeyCreate = .ok ⟨some ⟨keyId⟩, secret⟩)
    (hm : ((NewTerraformTemplater sdk conf).CreateStaticKey saId).2 = .ok m) :
    m.get LockboxSecretKeyAccessKeyId = keyId ∧
    m.get LockboxSecretKeySecretAccessKey = secret := by
  obtain ⟨k, s, hk, rfl⟩ := CreateStaticKey_ok _ _ _ hm
  have hk2 : sdk.accessKeyCreate = .ok ⟨some ⟨k⟩, s⟩ := hk
  rw [hkey] at hk2
  simp only [Except.ok.injEq, CreateAccessKeyResponse.mk.injEq, Option.some.injEq,
    AccessKey.mk.injEq] at hk2
  obtain ⟨rfl, rfl⟩ := hk2
  exact ⟨rfl, rfl⟩

/-- C3: when step 4 returns the key id `keyId` and the secret `secret`, every
secret-create request of the run holds exactly the two text entries
`access_key_id -> keyId` and `secret_access_key -> secret`, and every record
handed to the encoder of `access-key.yaml` is `(keyId, secret)`.  A run that
ends well has sent that request and encoded that record, and afterwards
`access-key.yaml` holds the bytes the encoder produced for the record
`(keyId, secret)`, from the start of the file, followed by the bytes the file
held before beyond that length; the file is exactly the encoding of the
record when it held no more bytes than that before the run. -/
theorem stored_credentials_are_minted (env : Env) (sdk : SDK) (keyId secret : String)
    (hsdk : env.sdkBuild = .ok sdk)
    (hkey : sdk.accessKeyCreate = .ok ⟨some ⟨keyId⟩, secret⟩) :
    (∀ req, Event.secretCreate req ∈ (main env).trace →
      req.versionPayloadEntries =
        [{ key := "access_key_id", textValue := keyId },
         { key := "secret_access_key", textValue := secret }]) ∧
    (∀ doc, Event.encode .accessKey doc ∈ (main env).trace →
      doc = .lockboxSecretKeys { accessKeyId := keyId, secretAccessKey := secret }) ∧
    ((main env).outcome = .ok →
      (∃ req, Event.secretCreate req ∈ (main env).trace) ∧
      Event.encode .accessKey
        (.lockboxSecretKeys { accessKeyId := keyId, secretAccessKey := secret }) ∈
          (main env).trace ∧
      (main env).files .accessKey =
        some ((env.yamlEncode .accessKey
            (.lockboxSecretKeys { accessKeyId := keyId, secretAccessKey := secret })).chunks.flatten ++
          ((env.files .accessKey).getD []).drop
            (env.yamlEncode .accessKey
              (.lockboxSecretKeys
                { accessKeyId := keyId, secretAccessKey := secret })).chunks.flatten.length) ∧
      ((main env).files .accessKey =
          some (env.yamlEncode .accessKey
            (.lockboxSecretKeys
              { accessKeyId := keyId, secretAccessKey := secret })).chunks.flatten ↔
        ((env.files .accessKey).getD []).length ≤
          (env.yamlEncode .accessKey
            (.lockboxSecretKeys
              { accessKeyId := keyId, secretAccessKey := secret })).chunks.flatten.length)) := by
  have hall : (main env).trace.all (fun e =>
      match e with
      | .secretCreate req => decide (req.versionPayloadEntries =
          [{ key := "access_key_id", textValue := keyId },
           { key := "secret_access_key", textValue := secret }])
      | .encode .accessKey doc =>
        decide (doc = .lockboxSecretKeys { accessKeyId := keyId, secretAccessKey := secret })
      | _ => true) = true := by
    refine main_cases env (fun r => r.trace.all (fun e =>
      match e with
      | .secretCreate req => decide (req.versionPayloadEntries =
          [{ key := "access_key_id", textValue := keyId },
           { key := "secret_access_key", textValue := secret }])
      | .encode .accessKey doc =>
        decide (doc = .lockboxSecretKeys { accessKeyId := keyId, secretAccessKey := secret })
      | _ => true) = true) ?_ ?_ ?_ ?_ ?_ ?_ ?_ ?_ ?_
    · intro err _
      dsimp only
      rw [SetupConf_trace]
      rfl
    · intro conf err _ _
      dsimp only
      rw [SetupConf_trace]
      rfl
    · intro conf sdk1 err _ _ _
      dsimp only
      simp only [List.all_append, Bool.and_eq_true, SetupConf_trace]
      exact ⟨⟨rfl, rfl⟩,
        step_all _ (fun _ => rfl) (CreateBucket_trace _ _) rfl⟩
    · intro conf sdk1 bucketName err _ _ _ _
      dsimp only
      simp only [List.all_append, Bool.and_eq_true, SetupConf_trace]
      exact ⟨⟨⟨rfl, rfl⟩,
        step_all _ (fun _ => rfl) (CreateBucket_trace _ _) rfl⟩,
        step_all _ (fun _ => rfl) (CreateServiceAccount_trace _) rfl⟩
    · intro conf sdk1 bucketName saId err _ _ _ _ _
      dsimp only
      simp only [List.all_append, Bool.and_eq_true, SetupConf_trace]
      exact ⟨⟨⟨⟨rfl, rfl⟩,
        step_all _ (fun _ => rfl) (CreateBucket_trace _ _) rfl⟩,
        step_all _ (fun _ => rfl) (CreateServiceAccount_trace _) rfl⟩,
        step_all _ (fun _ => rfl) (AssignSaFolderStorageRoles_trace _ _) rfl⟩
    · intro conf sdk1 bucketName saId reason _ _ _ _ _ _
      dsimp only
      simp only [List.all_append, Bool.and_eq_true, SetupConf_trace]
      exact ⟨⟨⟨⟨⟨rfl, rfl⟩,
        step_all _ (fun _ => rfl) (CreateBucket_trace _ _) rfl⟩,
        step_all _ (fun _ => rfl) (CreateServiceAccount_trace _) rfl⟩,
        step_all _ (fun _ => rfl) (AssignSaFolderStorageRoles_trace _ _) rfl⟩,
        step_all _ (fun _ => rfl) (CreateStaticKey_trace _ _) rfl⟩
    · intro conf sdk1 bucketName saId err _ _ _ _ _ _
      dsimp only
      simp only [List.all_append, Bool.and_eq_true, SetupConf_trace]
      exact ⟨⟨⟨⟨⟨rfl, rfl⟩,
        step_all _ (fun _ => rfl) (CreateBucket_trace _ _) rfl⟩,
        step_all _ (fun _ => rfl) (CreateServiceAccount_trace _) rfl⟩,
        step_all _ (fun _ => rfl) (AssignSaFolderStorageRoles_trace _ _) rfl⟩,
        step_all _ (fun _ => rfl) (CreateStaticKey_trace _ _) rfl⟩
    · intro conf sdk1 bucketName saId m err _ hs _ _ _ hm _
      rw [hsdk] at hs
      cases hs
      obtain ⟨hk, hsec⟩ := CreateStaticKey_map sdk conf saId keyId secret m hkey hm
      dsimp only
      simp only [List.all_append, Bool.and_eq_true, SetupConf_trace]
      exact ⟨⟨⟨⟨⟨⟨rfl, rfl⟩,
        step_all _ (fun _ => rfl) (CreateBucket_trace _ _) rfl⟩,
        step_all _ (fun _ => rfl) (CreateServiceAccount_trace _) rfl⟩,
        step_all _ (fun _ => rfl) (AssignSaFolderStorageRoles_trace _ _) rfl⟩,
        step_all _ (fun _ => rfl) (CreateStaticKey_trace _ _) rfl⟩,
        step_all _ (fun _ => rfl) (CreateLockboxSecret_trace _ _)
          (by rw [hk, hsec]; simp [LockboxSecretKeyAccessKeyId, LockboxSecretKeySecretAccessKey])⟩
    · intro conf sdk1 bucketName saId m lockboxSecretId _ hs _ _ _ hm _
      rw [hsdk] at hs
      cases hs
      obtain ⟨hk, hsec⟩ := CreateStaticKey_map sdk conf saId keyId secret m hkey hm
      dsimp only
      simp only [List.all_append, Bool.and_eq_true, SetupConf_trace]
      refine ⟨⟨⟨⟨⟨⟨⟨rfl, rfl⟩,
        step_all _ (fun _ => rfl) (CreateBucket_trace _ _) rfl⟩,
        step_all _ (fun _ => rfl) (CreateServiceAccount_trace _) rfl⟩,
        step_all _ (fun _ => rfl) (AssignSaFolderStorageRoles_trace _ _) rfl⟩,
        step_all _ (fun _ => rfl) (CreateStaticKey_trace _ _) rfl⟩,
        step_all _ (fun _ => rfl) (CreateLockboxSecret_trace _ _)
          (by rw [hk, hsec]; simp [LockboxSecretKeyAccessKeyId, LockboxSecretKeySecretAccessKey])⟩,
        ?_⟩
      obtain ⟨rest, hrest⟩ := writeOutput_trace env bucketName saId lockboxSecretId m
      have hfull : ((writeOutput env bucketName saId lockboxSecretId m).trace ++ rest).all
          (fun e =>
            match e with
            | .secretCreate req => decide (req.versionPayloadEntries =
                [{ key := "access_key_id", textValue := keyId },
                 { key := "secret_access_key", textValue := secret }])
            | .encode .accessKey doc =>
              decide (doc =
                .lockboxSecretKeys { accessKeyId := keyId, secretAccessKey := secret })
            | _ => true) = true := by
        rw [hrest]
        simp [hk, hsec]
      rw [List.all_append, Bool.and_eq_true] at hfull
      exact hfull.1
  rw [List.all_eq_true] at hall
  refine ⟨fun req hreq => ?_, fun doc hdoc => ?_, fun hok => ?_⟩
  · simpa using hall _ hreq
  · simpa using hall _ hdoc
  · obtain ⟨conf, sdk1, bucketName, saId, m, lockboxSecretId, -, hs, -, -, -, hm, -, hw,
      htrace, hfiles⟩ := main_ok env hok
    rw [hsdk] at hs
    cases hs
    obtain ⟨hk, hsec⟩ := CreateStaticKey_map sdk conf saId keyId secret m hkey hm
    obtain ⟨hwt, -, hkf, -, -⟩ := writeOutput_ok env bucketName saId lockboxSecretId m m hw
    obtain ⟨logs, -, h5t⟩ := CreateLockboxSecret_trace (NewTerraformTemplater sdk conf) m
    rw [hk, hsec, writeAll_from_start] at hkf
    rw [hfiles, hkf]
    refine ⟨?_, ?_, rfl, ?_⟩
    · rw [htrace, h5t]
      exact ⟨_, List.mem_append_left _ (List.mem_append_right _ (List.mem_cons_self _ _))⟩
    · rw [htrace, hwt, hk, hsec]
      exact List.mem_append_right _ (by simp)
    · simp

/-- Witness of C3: the scenario re-run, whose step 4 returns `key-1` and
`s3cr3t`; `access-key.yaml` held thirteen bytes and holds afterwards the
eleven bytes encoded for `(key-1, s3cr3t)` followed by its last two old
bytes. -/
theorem stored_credentials_are_minted_witness :
    (∃ req, Event.secretCreate req ∈ (main rerunEnv).trace) ∧
    Event.encode .accessKey
      (.lockboxSecretKeys { accessKeyId := "key-1", secretAccessKey := "s3cr3t" }) ∈
        (main rerunEnv).trace ∧
    (main rerunEnv).files .accessKey =
      some [107, 101, 121, 45, 49, 115, 51, 99, 114, 51, 116, 12, 13] :=
  ⟨((stored_credentials_are_minted rerunEnv demoSDK "key-1" "s3cr3t" rfl rfl).2.2 rfl).1,
    ((stored_credentials_are_minted rerunEnv demoSDK "key-1" "s3cr3t" rfl rfl).2.2 rfl).2.1,
    ((stored_credentials_are_minted rerunEnv demoSDK "key-1" "s3cr3t" rfl rfl).2.2 rfl).2.2.1⟩

end Provision
